import Mathlib

/-!
# aws-bedrock-prompt-engineering: the Bedrock client wrapper and the menu dispatcher

A shallow embedding of `internal/bedrock/client.go`, `internal/prompting/*.go` and
`main.go`.

Conventions of the embedding.

* A Go `string` is a Lean `String` (the valid UTF-8 strings), a Go `int` is an `Int`.
* A Go `float64` is its IEEE-754 binary64 bit pattern (`Float64`); nothing in the
  program computes with floats, they are only stored, copied and encoded.
* A Go result pair `(*T, error)` is a pair of `Option`s, `none` standing for `nil`.
* `encoding/json` works on bytes; here a JSON text is represented by the document it
  spells (`Json`). A response body is either syntactically invalid or such a document.
* The SDK operation `bedrockruntime.Client.InvokeModel` is a function of the operation
  calls made so far and the current one. The `World` records the operation calls and, as
  ghost state, the arguments of every `InvokeModel` call of the wrapper.
* One operation call of the SDK client is a loop of attempts governed by the client's
  retryer (`NewFromConfig`); the service is a function of the attempts made so far and
  the current one.
* Writes to the console (`fmt.Print*`, `log.Printf`) are not part of the state.
-/

namespace Bedrock

/-! ## float64 -/

/-- An IEEE-754 binary64 value, held as the three fields of its 64-bit pattern: the sign
bit, the 11-bit biased exponent and the 52-bit fraction. -/
structure Float64 where
  sign : Bool
  expo : Fin 2048
  frac : Fin (2 ^ 52)
deriving DecidableEq

namespace Float64

/-- The 64-bit pattern. -/
def bits (f : Float64) : Nat :=
  (if f.sign then 2 ^ 63 else 0) + f.expo.val * 2 ^ 52 + f.frac.val

/-- Go `math.IsNaN(f)`. -/
def IsNaN (f : Float64) : Bool := f.expo.val == 2047 && f.frac.val != 0

/-- Go `math.IsInf(f, 0)`. -/
def IsInf (f : Float64) : Bool := f.expo.val == 2047 && f.frac.val == 0

/-- Neither an infinity nor a NaN. -/
def IsFinite (f : Float64) : Bool := !(f.IsInf || f.IsNaN)

/-- The rational number a finite `f` denotes (`0` for the non-finite patterns). -/
def toRat (f : Float64) : ℚ :=
  if f.expo.val = 2047 then 0
  else
    let m : Nat := if f.expo.val = 0 then f.frac.val else 2 ^ 52 + f.frac.val
    let e : Nat := if f.expo.val = 0 then 1 else f.expo.val
    (if f.sign then -1 else 1) * (m : ℚ) * (2 : ℚ) ^ ((e : Int) - 1075)

/-- Round `a / b` to the nearest natural number, ties to even (`b > 0`). -/
def roundHalfEven (a b : Nat) : Nat :=
  let q := a / b
  let r := a % b
  if 2 * r < b then q
  else if b < 2 * r then q + 1
  else if q % 2 = 0 then q else q + 1

/-- Scale `a / b` by powers of two until `2 ^ 52 ≤ a / b < 2 ^ 53`, keeping in `e` the
biased exponent of the unit in the last place (`a / b * 2 ^ (e - 1075)` is invariant). -/
def normalize : Nat → Nat → Nat → Nat → Nat × Nat × Nat
  | 0, a, b, e => (a, b, e)
  | fuel + 1, a, b, e =>
    if a < b * 2 ^ 52 then normalize fuel (2 * a) b (e - 1)
    else if b * 2 ^ 53 ≤ a then normalize fuel a (2 * b) (e + 1)
    else (a, b, e)

/-- The float64 of an untyped positive decimal constant `n / d` of the source, as the Go
compiler converts it: the nearest binary64 value, ties to even. Only the normal range
is handled (every constant of this program lies in it); `0` is returned otherwise. -/
def ofRatio (n d : Nat) : Float64 :=
  if n = 0 ∨ d = 0 then ⟨false, 0, 0⟩
  else
    let (a, b, e) := normalize 2200 n d 1075
    let m := roundHalfEven a b
    let (m, e) := if m = 2 ^ 53 then (2 ^ 52, e + 1) else (m, e)
    if 1 ≤ e ∧ e ≤ 2046 ∧ 2 ^ 52 ≤ m then ⟨false, Fin.ofNat e, Fin.ofNat (m - 2 ^ 52)⟩
    else ⟨false, 0, 0⟩

/-- Go `strconv.FormatFloat(f, 'g', -1, 64)` on the non-finite values, which is all
`encoding/json` uses it for (the text of an `UnsupportedValueError`). -/
def formatNonFinite (f : Float64) : String :=
  if f.IsNaN then "NaN" else if f.sign then "-Inf" else "+Inf"

end Float64

/-! ## Errors -/

/-- The Go `error` values that occur: the errors of the SDK call and of `encoding/json`,
and the wrapper `fmt.Errorf` builds for a `%w` verb (`*fmt.wrapError`). -/
inductive GoError
  | sdk (msg : String)
  | UnsupportedValueError (Str : String)
  | SyntaxError (msg : String) (Offset : Int)
  | UnmarshalTypeError (Value : String) (Type_ : String) (Struct : String) (Field : String)
  | wrapError (msg : String) (err : GoError)
deriving DecidableEq

namespace GoError

/-- The `Error() string` method. -/
def Error : GoError → String
  | sdk msg => msg
  | UnsupportedValueError str => "json: unsupported value: " ++ str
  | SyntaxError msg _ => msg
  | UnmarshalTypeError value typ struct field =>
    if struct ≠ "" ∨ field ≠ "" then
      "json: cannot unmarshal " ++ value ++ " into Go struct field " ++ struct ++ "." ++ field
        ++ " of type " ++ typ
    else "json: cannot unmarshal " ++ value ++ " into Go value of type " ++ typ
  | wrapError msg _ => msg

/-- Go `errors.Unwrap`. -/
def Unwrap : GoError → Option GoError
  | wrapError _ err => some err
  | _ => none

end GoError

/-- Go `fmt.Errorf(pre + "%w", err)`: the message is `pre` followed by `err.Error()`, and
the result wraps `err`. -/
def Errorf (pre : String) (err : GoError) : GoError :=
  .wrapError (pre ++ err.Error) err

/-! ## JSON documents -/

/-- A JSON number: the encoding of a Go `int`, the encoding of a finite `float64` (the
literal `encoding/json` writes for it, which reads back as the same `float64`), or any
other literal, kept as its text. -/
inductive JsonNumber
  | int (i : Int)
  | float64 (f : Float64)
  | literal (text : String)
deriving DecidableEq

/-- A JSON document. The members of an object are kept in the order of the text, with
their duplicates. -/
inductive Json
  | null
  | bool (b : Bool)
  | number (n : JsonNumber)
  | string (s : String)
  | array (items : List Json)
  | object (members : List (String × Json))

namespace Json

/-- Keys of an object in the order of the text (`[]` for any other document). -/
def keys : Json → List String
  | object members => members.map Prod.fst
  | _ => []

/-- Value of the first member named `key` of an object. -/
def get? : Json → String → Option Json
  | object members, key => (members.find? (fun kv => kv.1 == key)).map Prod.snd
  | _, _ => none

/-- Whether the document is an object. -/
def isObject : Json → Bool
  | object _ => true
  | _ => false

end Json

/-! ## `json.Marshal` of a `map[string]any` -/

/-- The dynamic values stored under `any` in the request map. -/
inductive GoValue
  | string (s : String)
  | float64 (f : Float64)
  | int (i : Int)
deriving DecidableEq

/-- Encoding of one value; a NaN or an infinity is an `UnsupportedValueError`. A string is
kept as it is: a `String` is valid UTF-8, and for such a string the text `encoding/json`
writes spells the same string (bytes that are not valid UTF-8, which a Go string may hold
and `encoding/json` replaces by U+FFFD, do not occur in a `String`). -/
def encodeValue : GoValue → Except GoError Json
  | .string s => .ok (.string s)
  | .float64 f =>
    if f.IsInf || f.IsNaN then .error (.UnsupportedValueError f.formatNonFinite)
    else .ok (.number (.float64 f))
  | .int i => .ok (.number (.int i))

/-- Insert a map entry into a list sorted by key. Keys are compared rune by rune, which
for valid UTF-8 is the byte order Go sorts them in. -/
def insertEntry (kv : String × GoValue) : List (String × GoValue) → List (String × GoValue)
  | [] => [kv]
  | x :: xs => if kv.1.data < x.1.data then kv :: x :: xs else x :: insertEntry kv xs

/-- The entries of a map in the order `encoding/json` writes them: sorted by key. -/
def sortedEntries (m : List (String × GoValue)) : List (String × GoValue) :=
  m.foldr insertEntry []

/-- Encode the entries in order, stopping at the first error. -/
def encodeEntries : List (String × GoValue) → Except GoError (List (String × Json))
  | [] => .ok []
  | (k, v) :: rest =>
    match encodeValue v with
    | .error err => .error err
    | .ok j =>
      match encodeEntries rest with
      | .error err => .error err
      | .ok js => .ok ((k, j) :: js)

/-- Go `json.Marshal` on a `map[string]any` (given as its entries, keys distinct). -/
def Marshal (m : List (String × GoValue)) : Except GoError Json :=
  match encodeEntries (sortedEntries m) with
  | .error err => .error err
  | .ok members => .ok (.object members)

/-! ## `json.Unmarshal` into a `ModelResponse` -/

/-- The body of a response as `encoding/json` sees it: bytes that fail its syntax check
(with the `SyntaxError` reported), or the document the bytes spell. -/
inductive ResponseBody
  | invalid (msg : String) (offset : Int)
  | document (v : Json)

structure ModelResponse where
  Type_ : String
  Completion : String
  StopReason : String
  Stop : String
deriving DecidableEq

/-- The fields of `ModelResponse`, in declaration order. -/
inductive Field
  | Type_
  | Completion
  | StopReason
  | Stop
deriving DecidableEq

namespace Field

/-- The name in the field's `json:"..."` tag. -/
def name : Field → String
  | Type_ => "type"
  | Completion => "completion"
  | StopReason => "stop_reason"
  | Stop => "stop"

/-- All fields, in declaration order. -/
def all : List Field := [Type_, Completion, StopReason, Stop]

/-- Assignment to a field. -/
def set (f : Field) (s : String) (v : ModelResponse) : ModelResponse :=
  match f with
  | Type_ => { v with Type_ := s }
  | Completion => { v with Completion := s }
  | StopReason => { v with StopReason := s }
  | Stop => { v with Stop := s }

/-- Reading a field. -/
def get (f : Field) (v : ModelResponse) : String :=
  match f with
  | Type_ => v.Type_
  | Completion => v.Completion
  | StopReason => v.StopReason
  | Stop => v.Stop

end Field

/-- Unicode simple case folding of a rune onto the lower-case ASCII letters: the runes
that fold together with an ASCII letter are its other case, the Kelvin sign (with `k`)
and the long s (with `s`). Other runes are left alone. -/
def foldRune (c : Char) : Char :=
  if 'A' ≤ c ∧ c ≤ 'Z' then Char.ofNat (c.toNat + 32)
  else if c = '\u212A' then 'k'
  else if c = '\u017F' then 's'
  else c

/-- Go `bytes.EqualFold(name, key)` for a `name` of lower-case ASCII letters and `_`. -/
def equalFold (name key : String) : Bool :=
  name.data == key.data.map foldRune

/-- The field an object key is stored in: the field with exactly this name, else the
first field whose name matches ignoring case. -/
def fieldFor (key : String) : Option Field :=
  match Field.all.find? (fun f => f.name == key) with
  | some f => some f
  | none => Field.all.find? (fun f => equalFold f.name key)

/-- State of a decoder: the value being filled and the first error saved. -/
structure decodeState where
  v : ModelResponse
  savedError : Option GoError

/-- Keep `err` unless an error is saved already. -/
def decodeState.saveError (d : decodeState) (err : GoError) : decodeState :=
  match d.savedError with
  | none => { d with savedError := some err }
  | some _ => d

/-- Store the value of a member into the (string) field `f`: a string is assigned, `null`
is ignored, anything else is an `UnmarshalTypeError` and is skipped. -/
def decodeState.store (d : decodeState) (f : Field) (item : Json) : decodeState :=
  match item with
  | .null => d
  | .string s => { d with v := f.set s d.v }
  | .bool _ => d.saveError (.UnmarshalTypeError "bool" "string" "ModelResponse" f.name)
  | .number _ => d.saveError (.UnmarshalTypeError "number" "string" "ModelResponse" f.name)
  | .array _ => d.saveError (.UnmarshalTypeError "array" "string" "ModelResponse" f.name)
  | .object _ => d.saveError (.UnmarshalTypeError "object" "string" "ModelResponse" f.name)

/-- Decode the members of an object in order; a key that names no field is skipped. -/
def decodeState.object (d : decodeState) : List (String × Json) → decodeState
  | [] => d
  | (key, item) :: rest =>
    match fieldFor key with
    | some f => (d.store f item).object rest
    | none => d.object rest

/-- Go `json.Unmarshal(data, &modelResp)` with `modelResp` a zero `ModelResponse`: the
value after the call and the error returned. -/
def Unmarshal (data : ResponseBody) : ModelResponse × Option GoError :=
  let zero : decodeState := ⟨⟨"", "", "", ""⟩, none⟩
  match data with
  | .invalid msg offset => (zero.v, some (.SyntaxError msg offset))
  | .document doc =>
    let d : decodeState :=
      match doc with
      | .object members => zero.object members
      | .null => zero
      | .bool _ => zero.saveError (.UnmarshalTypeError "bool" "bedrock.ModelResponse" "" "")
      | .number _ => zero.saveError (.UnmarshalTypeError "number" "bedrock.ModelResponse" "" "")
      | .string _ => zero.saveError (.UnmarshalTypeError "string" "bedrock.ModelResponse" "" "")
      | .array _ => zero.saveError (.UnmarshalTypeError "array" "bedrock.ModelResponse" "" "")
    (d.v, d.savedError)

/-! ## The client -/

structure ModelParams where
  ModelID : String
  Temperature : Float64
  TopP : Float64
  TopK : Int
  MaxTokens : Int
deriving DecidableEq

/-- The `bedrockruntime.InvokeModelInput` the wrapper fills in (`Body` is the document
the body bytes spell, `Json.text` below gives the text of those bytes; the two string
pointers are never nil). -/
structure InvokeModelInput where
  ModelId : String
  Body : Json
  ContentType : String

/-- The SDK operation `bedrockruntime.Client.InvokeModel`: given the operation calls made
before and the input of the current call, the error of the call or the body of the
response. -/
abbrev Remote := List InvokeModelInput → InvokeModelInput → Except GoError ResponseBody

/-! ## The SDK client

`bedrockruntime.NewFromConfig(cfg)` is code of the AWS SDK (`aws-sdk-go-v2`), not of this
repository. What is embedded here is the part of it that decides how many times one
operation call addresses the service: the steps of the operation that come before the
retry loop, as a parameter, and the retry loop of `retry.Attempt.HandleFinalize`. The
waiting between two attempts is left out. -/

/-- The service as one attempt of the SDK sees it: given the attempts made before, oldest
first, and the request of this attempt, the body of the response or the error of the
attempt (an HTTP status that is an error, a connection failure). -/
abbrev Endpoint := List InvokeModelInput → InvokeModelInput → Except GoError ResponseBody

/-- The `aws.Retryer` of a client: the number of attempts one operation call may make,
the errors after which it tries again, and the retry quota, which is given the attempts
made so far and returns its error when no token is left. -/
structure Retryer where
  MaxAttempts : Nat
  IsErrorRetryable : GoError → Bool
  GetRetryToken : List InvokeModelInput → GoError → Option GoError

/-- The constant `retry.DefaultMaxAttempts`, the attempts of the retryer a client gets
when the configuration names none. -/
def DefaultMaxAttempts : Nat := 3

/-- The error `retry.MaxAttemptsError` with its `Error` text; it wraps `Err`. -/
def MaxAttemptsError (Attempt : Nat) (Err : GoError) : GoError :=
  .wrapError ("exceeded maximum number of attempts, " ++ toString Attempt ++ ", " ++ Err.Error)
    Err

/-- The error `smithy.OperationError` of this operation with its `Error` text; it wraps
`Err`. -/
def OperationError (Err : GoError) : GoError :=
  .wrapError ("operation error Bedrock Runtime: InvokeModel, " ++ Err.Error) Err

/-- The loop of `retry.Attempt.HandleFinalize` when `remaining` further attempts are
allowed after the next one: the outcome and the attempts made, `sent` being those made
before. An attempt that succeeds ends the loop, and so does an error that is not
retryable; a retryable error ends it when no attempt remains (`MaxAttemptsError`) or the
quota gives no token. -/
def Retryer.HandleFinalize (r : Retryer) (endpoint : Endpoint) (input : InvokeModelInput) :
    Nat → List InvokeModelInput → Except GoError ResponseBody × List InvokeModelInput
  | 0, sent =>
    match endpoint sent input with
    | .ok body => (.ok body, sent ++ [input])
    | .error err =>
      if r.IsErrorRetryable err = false then (.error err, sent ++ [input])
      else (.error (MaxAttemptsError r.MaxAttempts err), sent ++ [input])
  | remaining + 1, sent =>
    match endpoint sent input with
    | .ok body => (.ok body, sent ++ [input])
    | .error err =>
      if r.IsErrorRetryable err = false then (.error err, sent ++ [input])
      else
        match r.GetRetryToken (sent ++ [input]) err with
        | some tokenErr => (.error tokenErr, sent ++ [input])
        | none => r.HandleFinalize endpoint input remaining (sent ++ [input])

/-- What one operation call of a client depends on: the retryer (its `MaxAttempts` is
positive), the steps of the operation that come before the retry loop (the validation
and serialisation of the input, the resolution of the credentials and of the endpoint),
given as the error of the first of them that fails, if any, and the service. -/
structure Config where
  retryer : Retryer
  before : List InvokeModelInput → InvokeModelInput → Option GoError
  endpoint : Endpoint

/-- One call of the operation `InvokeModel` on a client of the configuration `cfg`, `sent`
being the attempts made before: the steps before the loop, then the loop of attempts; an
error is returned as an `OperationError`. The outcome, and the attempts made. -/
def Config.InvokeModel (cfg : Config) (input : InvokeModelInput)
    (sent : List InvokeModelInput) : Except GoError ResponseBody × List InvokeModelInput :=
  match cfg.before sent input with
  | some err => (.error (OperationError err), sent)
  | none =>
    match cfg.retryer.HandleFinalize cfg.endpoint input (cfg.retryer.MaxAttempts - 1) sent with
    | (.ok body, sent) => (.ok body, sent)
    | (.error err, sent) => (.error (OperationError err), sent)

/-- The attempts the client has made after the operation calls `calls`, oldest first. -/
def Config.sent (cfg : Config) (calls : List InvokeModelInput) : List InvokeModelInput :=
  calls.foldl (fun sent input => (cfg.InvokeModel input sent).2) []

/-- The operation of the client `bedrockruntime.NewFromConfig(cfg)` builds. -/
def NewFromConfig (cfg : Config) : Remote :=
  fun calls input => (cfg.InvokeModel input (cfg.sent calls)).1

structure Client where
  client : Remote

/-- What the program has done to the outside so far: the calls of the SDK operation
(`requests`, the inputs oldest first) and (ghost) the arguments of every call of
`InvokeModel`. The attempts the SDK client made for these calls are `Config.sent`. -/
structure World where
  invoked : List (String × ModelParams)
  requests : List InvokeModelInput

/-- The process environment, as `os.Getenv` reads it. -/
abbrev Env := String → String

/-- The map `InvokeModel` builds, as its entries in source order. -/
def requestBody (prompt : String) (params : ModelParams) : List (String × GoValue) :=
  [ ("prompt", .string ("\n\nHuman: " ++ prompt ++ "\n\nAssistant:")),
    ("temperature", .float64 params.Temperature),
    ("top_p", .float64 params.TopP),
    ("top_k", .int params.TopK),
    ("max_tokens_to_sample", .int params.MaxTokens) ]

def Client.InvokeModel (c : Client) (prompt : String) (params : ModelParams) (w : World) :
    (Option ModelResponse × Option GoError) × World :=
  let w : World := { w with invoked := w.invoked ++ [(prompt, params)] }
  match Marshal (requestBody prompt params) with
  | .error err => ((none, some (Errorf "failed to marshal request body: " err)), w)
  | .ok bodyBytes =>
    let input : InvokeModelInput :=
      { ModelId := params.ModelID, Body := bodyBytes, ContentType := "application/json" }
    let w' : World := { w with requests := w.requests ++ [input] }
    match c.client w.requests input with
    | .error err => ((none, some (Errorf "failed to invoke model: " err)), w')
    | .ok body =>
      match Unmarshal body with
      | (_, some err) => ((none, some (Errorf "failed to unmarshal response: " err)), w')
      | (modelResp, none) => ((some modelResp, none), w')

/-- GetDefaultClaudeParams returns default parameters for Claude v2 model -/
def GetDefaultClaudeParams (env : Env) : ModelParams :=
  { ModelID := env "MODEL_ID",
    Temperature := Float64.ofRatio 7 10, -- 0.7
    TopP := Float64.ofRatio 10 10, -- 1.0
    TopK := 500,
    MaxTokens := 500 }

/-! ## The text `json.Marshal` writes -/

/-- The digit `hex[n]` of `encoding/json`, for `n < 16`. -/
def hexDigit (n : Nat) : Char :=
  if n < 10 then Char.ofNat (48 + n) else Char.ofNat (87 + n)

/-- The set `htmlSafeSet` of `encoding/json`: the ASCII characters a string is written with
as they are. `json.Marshal` escapes for HTML, so `<`, `>` and `&` are not in it. -/
def htmlSafe (c : Char) : Bool :=
  0x20 ≤ c.toNat && c.toNat < 0x80 && c != '"' && c != '\\' && c != '<' && c != '>' && c != '&'

/-- What `appendString` of `encoding/json` writes for one rune of a valid UTF-8 string.
Since Go 1.22 backspace and form feed are written `\b` and `\f` (`shortEscapes`), before
that as `\u0008` and `\u000c`. -/
def appendRune (shortEscapes : Bool) (c : Char) : List Char :=
  if c.toNat < 0x80 then
    if htmlSafe c then [c]
    else if c = '\\' ∨ c = '"' then ['\\', c]
    else if c = '\x08' ∧ shortEscapes = true then ['\\', 'b']
    else if c = '\x0c' ∧ shortEscapes = true then ['\\', 'f']
    else if c = '\n' then ['\\', 'n']
    else if c = '\r' then ['\\', 'r']
    else if c = '\t' then ['\\', 't']
    else ['\\', 'u', '0', '0', hexDigit (c.toNat / 16), hexDigit (c.toNat % 16)]
  else if c = '\u2028' ∨ c = '\u2029' then ['\\', 'u', '2', '0', '2', hexDigit (c.toNat % 16)]
  else [c]

/-- The runes of a string, each as `appendRune` writes it. -/
def appendRunes (shortEscapes : Bool) : List Char → List Char
  | [] => []
  | c :: cs => appendRune shortEscapes c ++ appendRunes shortEscapes cs

/-- Go `appendString(dst, src, true)` of `encoding/json`: the JSON string literal written
for a (valid UTF-8) string. -/
def appendString (shortEscapes : Bool) (src : String) : List Char :=
  '"' :: appendRunes shortEscapes src.data ++ ['"']

/-- Decimal digits of a natural number, most significant first (`fuel` bounds the number
of digits). -/
def natDigits : Nat → Nat → List Char → List Char
  | 0, n, acc => Char.ofNat (48 + n % 10) :: acc
  | fuel + 1, n, acc =>
    if n < 10 then Char.ofNat (48 + n) :: acc
    else natDigits fuel (n / 10) (Char.ofNat (48 + n % 10) :: acc)

/-- Go `strconv.AppendInt(dst, i, 10)`. -/
def formatInt : Int → List Char
  | .ofNat n => natDigits n n []
  | .negSucc n => '-' :: natDigits (n + 1) (n + 1) []

/-- The text of a number. `formatFloat` is the text `encoding/json` writes for a finite
`float64` (`strconv.AppendFloat` with the shortest digits that read back as the same
value); it is a parameter of this development. -/
def JsonNumber.text (formatFloat : Float64 → List Char) : JsonNumber → List Char
  | .int i => formatInt i
  | .float64 f => formatFloat f
  | .literal text => text.data

mutual

/-- The text `json.Marshal` writes for a document: compact, the members of an object in
their order. -/
def Json.text (shortEscapes : Bool) (formatFloat : Float64 → List Char) : Json → List Char
  | .null => ['n', 'u', 'l', 'l']
  | .bool b => if b then ['t', 'r', 'u', 'e'] else ['f', 'a', 'l', 's', 'e']
  | .number n => n.text formatFloat
  | .string s => appendString shortEscapes s
  | .array items => '[' :: textItems shortEscapes formatFloat items ++ [']']
  | .object members => '{' :: textMembers shortEscapes formatFloat members ++ ['}']

/-- The elements of an array, with commas between them. -/
def textItems (shortEscapes : Bool) (formatFloat : Float64 → List Char) :
    List Json → List Char
  | [] => []
  | [x] => x.text shortEscapes formatFloat
  | x :: y :: rest =>
    x.text shortEscapes formatFloat ++ ',' :: textItems shortEscapes formatFloat (y :: rest)

/-- The members of an object, `key:value` with commas between them. -/
def textMembers (shortEscapes : Bool) (formatFloat : Float64 → List Char) :
    List (String × Json) → List Char
  | [] => []
  | [(k, v)] => appendString shortEscapes k ++ ':' :: v.text shortEscapes formatFloat
  | (k, v) :: y :: rest =>
    appendString shortEscapes k ++ ':' :: v.text shortEscapes formatFloat
      ++ ',' :: textMembers shortEscapes formatFloat (y :: rest)

end

end Bedrock

namespace Prompting
open Bedrock

/-!
The methods of the three prompting types have pointer receivers: each is a function of
the instance and the world that returns its error, the instance and the world after
it. On success a method prints the completion of the response; `InvokeModel` returns a
response whenever it returns no error.
-/

/-! ## zero_shot.go -/

structure ZeroShotPrompt where
  client : Client
  params : ModelParams

/-- NewZeroShotPrompt creates a zero-shot prompting instance. -/
def NewZeroShotPrompt (client : Client) (env : Env) : ZeroShotPrompt :=
  let params := GetDefaultClaudeParams env
  let params := { params with Temperature := Float64.ofRatio 3 10 } -- 0.3
  { client := client, params := params }

namespace ZeroShotPrompt

/-- The `prompt` of `ExecuteTextClassification`. -/
def textClassificationPrompt : String :=
  "Classify the following text as either \"positive\", \"negative\", or \"neutral\":\n\tText: \"I absolutely love this new restaurant! The food was amazing and the service was excellent.\"\n\tClassification:"

/-- The `prompt` of `ExecuteQuestionAnswering`. -/
def questionAnsweringPrompt : String :=
  "Answer the following question based on general knowledge:\n\tQuestion: What is the capital of Japan and what is it famous for?\n\tAnswer:"

/-- The `prompt` of `ExecuteLanguageTranslation`. -/
def languageTranslationPrompt : String :=
  "Translate the following English text to French:\n\tEnglish: \"Hello, how are you today? I hope you're having a wonderful day!\"\n\tFrench:"

/-- The `prompt` of `ExecuteCodeGeneration`. -/
def codeGenerationPrompt : String :=
  "Write a Python function that calculates the factorial of a number:\n\tFunction name: calculate_factorial\n\tInput: integer n\n\tOutput: factorial of n\n\tInclude error handling for negative numbers.\n\tCode:"

/-- ExecuteTextClassification demonstrates zero-shot text classification -/
def ExecuteTextClassification (z : ZeroShotPrompt) (w : World) : Option GoError × ZeroShotPrompt × World :=
  let prompt := textClassificationPrompt
  match z.client.InvokeModel prompt z.params w with
  | ((_, some err), w) => (some (Errorf "failed to execute text classification: " err), z, w)
  | ((_, none), w) => (none, z, w)

/-- ExecuteQuestionAnswering demonstrates zero-shot question answering -/
def ExecuteQuestionAnswering (z : ZeroShotPrompt) (w : World) : Option GoError × ZeroShotPrompt × World :=
  let prompt := questionAnsweringPrompt
  match z.client.InvokeModel prompt z.params w with
  | ((_, some err), w) => (some (Errorf "failed to execute question answering: " err), z, w)
  | ((_, none), w) => (none, z, w)

/-- ExecuteLanguageTranslation demonstrates zero-shot translation -/
def ExecuteLanguageTranslation (z : ZeroShotPrompt) (w : World) : Option GoError × ZeroShotPrompt × World :=
  let prompt := languageTranslationPrompt
  match z.client.InvokeModel prompt z.params w with
  | ((_, some err), w) => (some (Errorf "failed to execute language translation: " err), z, w)
  | ((_, none), w) => (none, z, w)

/-- ExecuteCodeGeneration demonstrates zero-shot code generation -/
def ExecuteCodeGeneration (z : ZeroShotPrompt) (w : World) : Option GoError × ZeroShotPrompt × World :=
  let prompt := codeGenerationPrompt
  match z.client.InvokeModel prompt z.params w with
  | ((_, some err), w) => (some (Errorf "failed to execute code generation: " err), z, w)
  | ((_, none), w) => (none, z, w)

/-- The `examples` table of `RunAllExamples`. -/
def examples : List (String × (ZeroShotPrompt → World → Option GoError × ZeroShotPrompt × World)) :=
  [ ("Text Classification", ExecuteTextClassification),
    ("Question Answering", ExecuteQuestionAnswering),
    ("Language Translation", ExecuteLanguageTranslation),
    ("Code Generation", ExecuteCodeGeneration) ]

/-- RunAllExamples executes all examples in order; an error is logged and the loop
goes on. -/
def RunAllExamples (z : ZeroShotPrompt) (w : World) : ZeroShotPrompt × World :=
  examples.foldl (fun s ex => let r := ex.2 s.1 s.2; (r.2.1, r.2.2)) (z, w)

end ZeroShotPrompt

/-! ## few_shot.go -/

structure FewShotPrompt where
  client : Client
  params : ModelParams

/-- NewFewShotPrompt creates a few-shot prompting instance. -/
def NewFewShotPrompt (client : Client) (env : Env) : FewShotPrompt :=
  let params := GetDefaultClaudeParams env
  let params := { params with Temperature := Float64.ofRatio 5 10 } -- 0.5
  let params := { params with MaxTokens := 800 }
  { client := client, params := params }

namespace FewShotPrompt

/-- The `prompt` of `ExecuteSentimentAnalysis`. -/
def sentimentAnalysisPrompt : String :=
  "Analyze the sentiment of the following texts. Classify each as \"positive\", \"negative\", or \"neutral\".\n\n\tExamples:\n\tText: \"I love this product! It's amazing!\"\n\tSentiment: positive\n\t\n\tText: \"This is terrible. I hate it.\"\n\tSentiment: negative\n\t\n\tText: \"The weather is okay today.\"\n\tSentiment: neutral\n\t\n\tText: \"The customer service was outstanding and they resolved my issue quickly.\"\n\tSentiment: positive\n\t\n\tNow classify this text:\n\tText: \"The movie was disappointing. The plot was confusing and the acting was mediocre.\"\n\tSentiment:"

/-- The `prompt` of `ExecuteEntityExtraction`. -/
def entityExtractionPrompt : String :=
  "Extract named entities from the given text. Identify PERSON, ORGANIZATION, and LOCATION entities.\n\n\tExamples:\n\tText: \"John Smith works at Microsoft in Seattle.\"\n\tEntities:\n\t- PERSON: John Smith\n\t- ORGANIZATION: Microsoft\n\t- LOCATION: Seattle\n\t\n\tText: \"Apple Inc. was founded by Steve Jobs in Cupertino.\"\n\tEntities:\n\t- ORGANIZATION: Apple Inc.\n\t- PERSON: Steve Jobs\n\t- LOCATION: Cupertino\n\t\n\tText: \"The meeting with Google representatives will be held in San Francisco.\"\n\tEntities:\n\t- ORGANIZATION: Google\n\t- LOCATION: San Francisco\n\t\n\tNow extract entities from this text:\n\tText: \"Dr. Sarah Johnson from Harvard University will present her research at the conference in Boston next week.\"\n\tEntities:"

/-- The `prompt` of `ExecuteCodeCompletion`. -/
def codeCompletionPrompt : String :=
  "Complete the following code snippets based on the pattern shown in the examples:\n\n\tExample 1:\n\tInput: Create a function to add two numbers\n\tOutput:\n\tdef add_numbers(a, b):\n\t    \"\"\"Add two numbers and return the result.\"\"\"\n\t    return a + b\n\t\n\tExample 2:\n\tInput: Create a function to multiply two numbers\n\tOutput:\n\tdef multiply_numbers(a, b):\n\t    \"\"\"Multiply two numbers and return the result.\"\"\"\n\t    return a * b\n\t\n\tExample 3:\n\tInput: Create a function to check if a number is even\n\tOutput:\n\tdef is_even(number):\n\t    \"\"\"Check if a number is even.\"\"\"\n\t    return number % 2 == 0\n\t\n\tNow complete this:\n\tInput: Create a function to find the maximum of three numbers\n\tOutput:"

/-- The `prompt` of `ExecuteEmailClassification`. -/
def emailClassificationPrompt : String :=
  "Classify emails into categories: \"urgent\", \"marketing\", \"support\", or \"general\".\n\n\tExamples:\n\tEmail: \"URGENT: Server is down! Please fix immediately!\"\n\tCategory: urgent\n\t\n\tEmail: \"Check out our amazing 50% off sale this weekend!\"\n\tCategory: marketing\n\t\n\tEmail: \"I'm having trouble logging into my account. Can you help?\"\n\tCategory: support\n\t\n\tEmail: \"Thank you for your purchase. Your order has been shipped.\"\n\tCategory: general\n\t\n\tEmail: \"SPECIAL OFFER: Buy 2 get 1 free on all products!\"\n\tCategory: marketing\n\t\n\tNow classify this email:\n\tEmail: \"Hi, I need assistance with setting up my new account. The verification email never arrived.\"\n\tCategory:"

/-- The `prompt` of `ExecuteCreativeWriting`. -/
def creativeWritingPrompt : String :=
  "Write a short story opening based on the given prompt. Follow the style shown in the examples:\n\n\tExample 1:\n\tPrompt: A mysterious package arrives\n\tOpening: The package sat on her doorstep like a riddle wrapped in brown paper. No return address, no delivery notice\u2014just her name written in elegant script that seemed to shimmer in the morning light.\n\t\n\tExample 2:\n\tPrompt: First day at a new job\n\tOpening: The elevator climbed twenty-three floors, and with each passing number, Marcus felt his confidence slip another notch. By the time the doors opened, he was pretty sure he'd made a terrible mistake.\n\t\n\tExample 3:\n\tPrompt: Finding an old diary\n\tOpening: The diary's leather cover was worn smooth by decades of handling, its pages yellowed and brittle. As Emma opened it, the scent of lavender and old secrets escaped into the dusty attic air.\n\t\n\tNow write an opening for this prompt:\n\tPrompt: Waking up in a world where colors have disappeared\n\tOpening:"

/-- ExecuteSentimentAnalysis demonstrates few-shot sentiment analysis -/
def ExecuteSentimentAnalysis (f : FewShotPrompt) (w : World) : Option GoError × FewShotPrompt × World :=
  let prompt := sentimentAnalysisPrompt
  match f.client.InvokeModel prompt f.params w with
  | ((_, some err), w) => (some (Errorf "failed to execute sentiment analysis: " err), f, w)
  | ((_, none), w) => (none, f, w)

/-- ExecuteEntityExtraction demonstrates few-shot named entity recognition -/
def ExecuteEntityExtraction (f : FewShotPrompt) (w : World) : Option GoError × FewShotPrompt × World :=
  let prompt := entityExtractionPrompt
  match f.client.InvokeModel prompt f.params w with
  | ((_, some err), w) => (some (Errorf "failed to execute entity extraction: " err), f, w)
  | ((_, none), w) => (none, f, w)

/-- ExecuteCodeCompletion demonstrates few-shot code completion -/
def ExecuteCodeCompletion (f : FewShotPrompt) (w : World) : Option GoError × FewShotPrompt × World :=
  let prompt := codeCompletionPrompt
  match f.client.InvokeModel prompt f.params w with
  | ((_, some err), w) => (some (Errorf "failed to execute code completion: " err), f, w)
  | ((_, none), w) => (none, f, w)

/-- ExecuteEmailClassification demonstrates few-shot email classification -/
def ExecuteEmailClassification (f : FewShotPrompt) (w : World) : Option GoError × FewShotPrompt × World :=
  let prompt := emailClassificationPrompt
  match f.client.InvokeModel prompt f.params w with
  | ((_, some err), w) => (some (Errorf "failed to execute email classification: " err), f, w)
  | ((_, none), w) => (none, f, w)

/-- ExecuteCreativeWriting demonstrates few-shot creative writing -/
def ExecuteCreativeWriting (f : FewShotPrompt) (w : World) : Option GoError × FewShotPrompt × World :=
  let prompt := creativeWritingPrompt
  let params := f.params
  let params := { params with Temperature := Float64.ofRatio 8 10 } -- 0.8
  match f.client.InvokeModel prompt params w with
  | ((_, some err), w) => (some (Errorf "failed to execute creative writing: " err), f, w)
  | ((_, none), w) => (none, f, w)

/-- The `examples` table of `RunAllExamples`. -/
def examples : List (String × (FewShotPrompt → World → Option GoError × FewShotPrompt × World)) :=
  [ ("Sentiment Analysis", ExecuteSentimentAnalysis),
    ("Entity Extraction", ExecuteEntityExtraction),
    ("Code Completion", ExecuteCodeCompletion),
    ("Email Classification", ExecuteEmailClassification),
    ("Creative Writing", ExecuteCreativeWriting) ]

/-- RunAllExamples executes all examples in order; an error is logged and the loop
goes on. -/
def RunAllExamples (f : FewShotPrompt) (w : World) : FewShotPrompt × World :=
  examples.foldl (fun s ex => let r := ex.2 s.1 s.2; (r.2.1, r.2.2)) (f, w)

end FewShotPrompt

/-! ## chain_of_thought.go -/

structure ChainOfThoughtPrompt where
  client : Client
  params : ModelParams

/-- NewChainOfThoughtPrompt creates a new instance for chain-of-thought prompting. -/
def NewChainOfThoughtPrompt (client : Client) (env : Env) : ChainOfThoughtPrompt :=
  let params := GetDefaultClaudeParams env
  let params := { params with Temperature := Float64.ofRatio 4 10 } -- 0.4
  let params := { params with MaxTokens := 1000 }
  { client := client, params := params }

namespace ChainOfThoughtPrompt

/-- The `prompt` of `ExecuteMathProblemSolving`. -/
def mathProblemSolvingPrompt : String :=
  "Solve the following math problem step by step. Show your reasoning process.\n\n\tProblem: A store is having a sale. Sarah buys 3 shirts that normally cost $25 each, but they're 20% off. She also buys 2 pairs of jeans that cost $40 each with no discount. If she pays with a $200 gift card, how much money will she have left on the card?\n\t\n\tLet me think through this step by step:\n\t\n\tStep 1: Calculate the original cost of the shirts\n\t3 shirts \u00D7 $25 each = $75\n\t\n\tStep 2: Calculate the discount on the shirts\n\t20% of $75 = 0.20 \u00D7 $75 = $15\n\t\n\tStep 3: Calculate the discounted price of the shirts\n\t$75 - $15 = $60\n\t\n\tStep 4: Calculate the cost of the jeans\n\t2 pairs \u00D7 $40 each = $80\n\t\n\tStep 5: Calculate the total purchase amount\n\tShirts: $60 + Jeans: $80 = $140\n\t\n\tStep 6: Calculate the remaining amount on the gift card\n\t$200 - $140 = $60\n\t\n\tTherefore, Sarah will have $60 left on her gift card.\n\t\n\tNow solve this problem using the same step-by-step approach:\n\t\n\tProblem: Tom is planning a party for 24 people. Each pizza serves 8 people and costs $12. He also wants to buy drinks that cost $3 per person. If he has a $150 budget, how much money will he have left after buying the food and drinks?\n\t\n\tLet me think through this step by step:"

/-- The `prompt` of `ExecuteLogicalReasoning`. -/
def logicalReasoningPrompt : String :=
  "Solve the following logical reasoning problem by thinking through each step.\n\n\tExample:\n\tProblem: All cats are mammals. All mammals are animals. Fluffy is a cat. Is Fluffy an animal?\n\t\n\tReasoning:\n\t1. Given: All cats are mammals\n\t2. Given: All mammals are animals  \n\t3. Given: Fluffy is a cat\n\t4. From 1 and 3: Since Fluffy is a cat, and all cats are mammals, Fluffy is a mammal\n\t5. From 2 and 4: Since Fluffy is a mammal, and all mammals are animals, Fluffy is an animal\n\t\n\tConclusion: Yes, Fluffy is an animal.\n\t\n\tNow solve this problem using the same logical reasoning approach:\n\t\n\tProblem: All teachers at Riverside School speak at least two languages. Ms. Johnson teaches at Riverside School. Everyone who speaks at least two languages can tutor international students. Can Ms. Johnson tutor international students?\n\t\n\tReasoning:"

/-- The `prompt` of `ExecuteProblemDecomposition`. -/
def problemDecompositionPrompt : String :=
  "Break down the following complex problem into smaller, manageable steps and solve it systematically.\n\n\tExample:\n\tProblem: Design a simple mobile app for a local restaurant\n\t\n\tStep-by-step breakdown:\n\t1. Identify core requirements\n\t   - Menu display\n\t   - Order placement\n\t   - Location and contact info\n\t   - User accounts\n\t\n\t2. Plan user interface\n\t   - Home screen with navigation\n\t   - Menu categories and items\n\t   - Shopping cart functionality\n\t   - Checkout process\n\t\n\t3. Consider technical requirements\n\t   - Database for menu items\n\t   - Payment processing integration\n\t   - Push notifications for order status\n\t   - Backend API for order management\n\t\n\t4. Implementation phases\n\t   - Phase 1: Basic menu display\n\t   - Phase 2: Order functionality\n\t   - Phase 3: User accounts and history\n\t   - Phase 4: Advanced features\n\t\n\tNow break down this complex problem using the same systematic approach:\n\t\n\tProblem: Plan a sustainable office renovation project for a 50-person company that wants to reduce their environmental impact while improving employee productivity.\n\t\n\tStep-by-step breakdown:"

/-- The `prompt` of `ExecuteCodeDebugging`. -/
def codeDebuggingPrompt : String :=
  "Debug the following code by thinking through the logic step by step.\n\n\tExample:\n\tCode with bug:\n\tdef calculate_average(numbers):\n\t    total = 0\n\t    for num in numbers:\n\t        total += num\n\t    return total / len(numbers)\n\t\n\t# Test\n\tresult = calculate_average([])\n\tprint(result)\n\t\n\tDebugging process:\n\t1. Analyze what the function should do: Calculate the average of a list of numbers\n\t2. Trace through the code:\n\t   - Initialize total = 0\n\t   - Loop through numbers and add to total\n\t   - Return total divided by length of numbers\n\t3. Identify the problem: When numbers is empty list [], len(numbers) = 0\n\t4. Issue: Division by zero will raise ZeroDivisionError\n\t5. Solution: Add check for empty list\n\t\n\tFixed code:\n\tdef calculate_average(numbers):\n\t    if not numbers:  # Check if list is empty\n\t        return 0     # or raise ValueError(\"Cannot calculate average of empty list\")\n\t    total = 0\n\t    for num in numbers:\n\t        total += num\n\t    return total / len(numbers)\n\t\n\tNow debug this code using the same systematic approach:\n\t\n\tCode with bug:\n\tdef find_max_value(data):\n\t    max_val = 0\n\t    for item in data:\n\t        if item > max_val:\n\t            max_val = item\n\t    return max_val\n\t\n\t# Test cases\n\tprint(find_max_value([1, 5, 3, 9, 2]))  # Should return 9\n\tprint(find_max_value([-5, -2, -8, -1]))  # Should return -1\n\tprint(find_max_value([]))  # Should handle empty list\n\t\n\tDebugging process:"

/-- The `prompt` of `ExecuteDecisionMaking`. -/
def decisionMakingPrompt : String :=
  "Analyze the following decision scenario step by step, considering all factors.\n\n\tExample:\n\tDecision: Should I accept a job offer in another city?\n\t\n\tAnalysis framework:\n\t1. Define the decision criteria\n\t   - Salary and benefits\n\t   - Career growth opportunities\n\t   - Cost of living\n\t   - Work-life balance\n\t   - Distance from family/friends\n\t\n\t2. Evaluate current situation\n\t   - Current salary: $70K\n\t   - Limited growth opportunities\n\t   - Low cost of living\n\t   - Close to family\n\t\n\t3. Evaluate new opportunity\n\t   - New salary: $95K (+$25K)\n\t   - Strong growth potential\n\t   - Higher cost of living (+$15K/year)\n\t   - 500 miles from family\n\t\n\t4. Calculate net benefits\n\t   - Financial: +$10K after cost of living\n\t   - Career: Significant improvement\n\t   - Personal: Some sacrifice in family time\n\t\n\t5. Consider long-term implications\n\t   - Career trajectory over 5 years\n\t   - Potential for remote work\n\t   - Family visit frequency\n\t\n\tConclusion: Accept if career growth is priority and financial gain justifies personal costs.\n\t\n\tNow analyze this decision using the same systematic approach:\n\t\n\tDecision: Should a small business owner invest $50,000 in new equipment or hire two additional employees?\n\t\n\tAnalysis framework:"

/-- ExecuteMathProblemSolving demonstrates chain-of-thought for math problems -/
def ExecuteMathProblemSolving (c : ChainOfThoughtPrompt) (w : World) : Option GoError × ChainOfThoughtPrompt × World :=
  let prompt := mathProblemSolvingPrompt
  match c.client.InvokeModel prompt c.params w with
  | ((_, some err), w) => (some (Errorf "failed to execute math problem solving: " err), c, w)
  | ((_, none), w) => (none, c, w)

/-- ExecuteLogicalReasoning demonstrates chain-of-thought for logical reasoning -/
def ExecuteLogicalReasoning (c : ChainOfThoughtPrompt) (w : World) : Option GoError × ChainOfThoughtPrompt × World :=
  let prompt := logicalReasoningPrompt
  match c.client.InvokeModel prompt c.params w with
  | ((_, some err), w) => (some (Errorf "failed to execute logical reasoning: " err), c, w)
  | ((_, none), w) => (none, c, w)

/-- ExecuteProblemDecomposition demonstrates breaking down complex problems -/
def ExecuteProblemDecomposition (c : ChainOfThoughtPrompt) (w : World) : Option GoError × ChainOfThoughtPrompt × World :=
  let prompt := problemDecompositionPrompt
  match c.client.InvokeModel prompt c.params w with
  | ((_, some err), w) => (some (Errorf "failed to execute problem decomposition: " err), c, w)
  | ((_, none), w) => (none, c, w)

/-- ExecuteCodeDebugging demonstrates chain-of-thought for debugging -/
def ExecuteCodeDebugging (c : ChainOfThoughtPrompt) (w : World) : Option GoError × ChainOfThoughtPrompt × World :=
  let prompt := codeDebuggingPrompt
  match c.client.InvokeModel prompt c.params w with
  | ((_, some err), w) => (some (Errorf "failed to execute code debugging: " err), c, w)
  | ((_, none), w) => (none, c, w)

/-- ExecuteDecisionMaking demonstrates chain-of-thought for decision analysis -/
def ExecuteDecisionMaking (c : ChainOfThoughtPrompt) (w : World) : Option GoError × ChainOfThoughtPrompt × World :=
  let prompt := decisionMakingPrompt
  match c.client.InvokeModel prompt c.params w with
  | ((_, some err), w) => (some (Errorf "failed to execute decision making: " err), c, w)
  | ((_, none), w) => (none, c, w)

/-- The `examples` table of `RunAllExamples`. -/
def examples : List (String × (ChainOfThoughtPrompt → World → Option GoError × ChainOfThoughtPrompt × World)) :=
  [ ("Math Problem Solving", ExecuteMathProblemSolving),
    ("Logical Reasoning", ExecuteLogicalReasoning),
    ("Problem Decomposition", ExecuteProblemDecomposition),
    ("Code Debugging", ExecuteCodeDebugging),
    ("Decision Making", ExecuteDecisionMaking) ]

/-- RunAllExamples executes all examples in order; an error is logged and the loop
goes on. -/
def RunAllExamples (c : ChainOfThoughtPrompt) (w : World) : ChainOfThoughtPrompt × World :=
  examples.foldl (fun s ex => let r := ex.2 s.1 s.2; (r.2.1, r.2.2)) (c, w)

end ChainOfThoughtPrompt

end Prompting

namespace Main
open Bedrock Prompting

/-! ## main.go -/

/-- Standard input, as the lines successive reads deliver (each with its line end, if it
has one), as on a terminal, where a read returns one line: every `bufio.Reader` the
program creates then reads the next line. Once the list is used up every read returns
the empty string (end of file; the read error is ignored by the program). -/
abbrev Stdin := List String

/-- Go `reader.ReadString(0x0A)` on standard input, its error dropped. -/
def ReadString (stdin : Stdin) : String × Stdin :=
  match stdin with
  | [] => ("", [])
  | line :: rest => (line, rest)

/-- Go `unicode.IsSpace`. -/
def isSpace (c : Char) : Bool :=
  let r := c.toNat
  (0x09 ≤ r && r ≤ 0x0D) || r == 0x20 || r == 0x85 || r == 0xA0 || r == 0x1680
    || (0x2000 ≤ r && r ≤ 0x200A) || r == 0x2028 || r == 0x2029 || r == 0x202F
    || r == 0x205F || r == 0x3000

/-- Go `strings.TrimSpace`. -/
def TrimSpace (s : String) : String :=
  String.mk (((s.data.dropWhile isSpace).reverse.dropWhile isSpace).reverse)

/-- Go `unicode.ToLower` on the runes whose lower case is an ASCII letter: the capital
ASCII letters, the dotted capital I (U+0130, lower case `i`) and the Kelvin sign (U+212A,
lower case `k`). Every other rune is left as it is: its lower case is not an ASCII
letter, so comparing the result with an ASCII word is not affected. -/
def toLowerRune (c : Char) : Char :=
  if 'A' ≤ c ∧ c ≤ 'Z' then Char.ofNat (c.toNat + 32)
  else if c = '\u0130' then 'i'
  else if c = '\u212A' then 'k'
  else c

/-- Go `strings.ToLower`, see `toLowerRune`. -/
def ToLower (s : String) : String :=
  String.mk (s.data.map toLowerRune)

def displayMenu (stdin : Stdin) : String × Stdin :=
  let (choice, stdin) := ReadString stdin
  (TrimSpace choice, stdin)

def runZeroShotExamples (client : Client) (env : Env) (w : World) : World :=
  let zeroShot := NewZeroShotPrompt client env
  (zeroShot.RunAllExamples w).2

def runFewShotExamples (client : Client) (env : Env) (w : World) : World :=
  let fewShot := NewFewShotPrompt client env
  (fewShot.RunAllExamples w).2

def runChainOfThoughtExamples (client : Client) (env : Env) (w : World) : World :=
  let chainOfThought := NewChainOfThoughtPrompt client env
  (chainOfThought.RunAllExamples w).2

def runAllExamples (client : Client) (env : Env) (w : World) : World :=
  let w := runZeroShotExamples client env w
  let w := runFewShotExamples client env w
  runChainOfThoughtExamples client env w

/-- The `for` loop of `runInteractiveMode`, run for at most `fuel` iterations. The result
is the input left when the loop is left by `break`, or `none` when the iterations are
used up with the loop still running. -/
def interactiveLoop (client : Client) (params : ModelParams) :
    Nat → Stdin → World → Option Stdin × World
  | 0, _, w => (none, w)
  | fuel + 1, stdin, w =>
    let (prompt, stdin) := ReadString stdin
    let prompt := TrimSpace prompt
    if ToLower prompt = "exit" then (some stdin, w)
    else if prompt = "" then interactiveLoop client params fuel stdin w
    else
      -- on an error the message is printed, else the completion; the loop goes on
      let (_, w) := client.InvokeModel prompt params w
      interactiveLoop client params fuel stdin w

def runInteractiveMode (client : Client) (env : Env) (fuel : Nat) (stdin : Stdin) (w : World) :
    Option Stdin × World :=
  let params := GetDefaultClaudeParams env
  interactiveLoop client params fuel stdin w

/-- How a run of `main` stands after a bounded number of loop iterations. -/
inductive Outcome
  | returned
  | fatal (msg : String)
  | running
deriving DecidableEq

/-- The main menu loop, run for at most `fuel` iterations (`running`: the iterations are
used up and the loop has not been left). -/
def mainLoop (client : Client) (env : Env) : Nat → Stdin → World → Outcome × World
  | 0, _, w => (.running, w)
  | fuel + 1, stdin, w =>
    let (choice, stdin) := displayMenu stdin
    if choice = "1" then
      let w := runZeroShotExamples client env w
      mainLoop client env fuel (ReadString stdin).2 w
    else if choice = "2" then
      let w := runFewShotExamples client env w
      mainLoop client env fuel (ReadString stdin).2 w
    else if choice = "3" then
      let w := runChainOfThoughtExamples client env w
      mainLoop client env fuel (ReadString stdin).2 w
    else if choice = "4" then
      let w := runAllExamples client env w
      mainLoop client env fuel (ReadString stdin).2 w
    else if choice = "5" then
      match runInteractiveMode client env fuel stdin w with
      | (none, w) => (.running, w)
      | (some stdin, w) => mainLoop client env fuel (ReadString stdin).2 w
    else if choice = "6" then (.returned, w)
    else mainLoop client env fuel (ReadString stdin).2 w

/-- NewClient: `loadDefaultConfig` is the outcome of `config.LoadDefaultConfig`, the
operation of the SDK client built from the configuration (`NewFromConfig`) or the
error. -/
def NewClient (loadDefaultConfig : Except GoError Remote) : Option Client × Option GoError :=
  match loadDefaultConfig with
  | .error err => (none, some (Errorf "failed to load AWS config: " err))
  | .ok cfg => (some { client := cfg }, none)

/-- The program: `dotenv` is the error of `godotenv.Load`, if any, and `env` the process
environment after it. -/
def main (dotenv : Option GoError) (loadDefaultConfig : Except GoError Remote) (env : Env)
    (fuel : Nat) (stdin : Stdin) : Outcome × World :=
  let w : World := { invoked := [], requests := [] }
  match dotenv with
  | some err => (.fatal ("Error loading .env file: " ++ err.Error), w)
  | none =>
    match NewClient loadDefaultConfig with
    | (_, some err) => (.fatal ("Error creating Bedrock client: " ++ err.Error), w)
    -- not reached: `NewClient` returns a client whenever it returns no error
    | (none, none) => (.fatal "nil client", w)
    | (some client, none) => mainLoop client env fuel stdin w

end Main

/-! ## Definitions used to state the properties -/

namespace Claims
open Bedrock Prompting Main

/-- The prompt text `InvokeModel` puts into the body for the caller's `prompt`. -/
def wrapped (prompt : String) : String :=
  "\n\nHuman: " ++ prompt ++ "\n\nAssistant:"

/-- The JSON object with the five members of a request, in the order of the text. -/
def bodyOf (prompt : String) (p : ModelParams) : Json :=
  .object [ ("max_tokens_to_sample", .number (.int p.MaxTokens)),
         ("prompt", .string (wrapped prompt)),
         ("temperature", .number (.float64 p.Temperature)),
         ("top_k", .number (.int p.TopK)),
         ("top_p", .number (.float64 p.TopP)) ]

/-- The request for `prompt` and `p`. -/
def requestOf (prompt : String) (p : ModelParams) : InvokeModelInput :=
  { ModelId := p.ModelID, Body := bodyOf prompt p, ContentType := "application/json" }

/-- Both floats of the parameters are finite. -/
def finiteParams (p : ModelParams) : Bool :=
  p.Temperature.IsFinite && p.TopP.IsFinite

/-- The object key `key` names the field `f`: it is the field's JSON name up to case. -/
def names (key : String) (f : Field) : Bool :=
  equalFold f.name key

/-- The string a document is, if it is one. -/
def stringOf : Json → Option String
  | .string s => some s
  | _ => none

/-- A value a string field takes without an error: a string or `null`. -/
def isStringOrNull : Json → Bool
  | .string _ => true
  | .null => true
  | _ => false

/-- Every member that names a field of `ModelResponse` holds a string or `null`. -/
def wellTyped (members : List (String × Json)) : Bool :=
  members.all (fun kv => isStringOrNull kv.2 || Field.all.all (fun f => !names kv.1 f))

/-- The documents that decode into a `ModelResponse` without an error: `null`, and the
objects that are `wellTyped`. -/
def decodes : Json → Bool
  | .null => true
  | .object members => wellTyped members
  | _ => false

/-- The string of the last member of an object that names `f` and holds a string. -/
def lastString? (f : Field) : List (String × Json) → Option String
  | [] => none
  | (key, item) :: rest =>
    match lastString? f rest with
    | some s => some s
    | none => if names key f then stringOf item else none

/-- The string the members of an object give the field `f`: that of the last member
naming `f` that holds a string, the empty string when there is none. -/
def lastString (f : Field) (members : List (String × Json)) : String :=
  (lastString? f members).getD ""

/-- The `ModelResponse` an object spells. -/
def responseOf (members : List (String × Json)) : ModelResponse :=
  { Type_ := lastString .Type_ members,
    Completion := lastString .Completion members,
    StopReason := lastString .StopReason members,
    Stop := lastString .Stop members }

/-- An endpoint that answers every request with the response body `body`. -/
def answering (body : ResponseBody) : Client :=
  { client := fun _ _ => .ok body }

/-- An endpoint on which every call fails with the error `err`. -/
def failing (err : GoError) : Client :=
  { client := fun _ _ => .error err }

/-- The world before any call. -/
def World.start : World :=
  { invoked := [], requests := [] }

/-- An environment where `MODEL_ID` is `anthropic.claude-v2:1`. -/
def sampleEnv : Env :=
  fun _ => "anthropic.claude-v2:1"

/-- The default parameters in `sampleEnv`. -/
def sampleParams : ModelParams :=
  GetDefaultClaudeParams sampleEnv

/-- A quiet NaN. -/
def nan : Float64 :=
  ⟨false, 2047, Fin.ofNat (2 ^ 51)⟩

/-- The parameters of the zero-shot examples in the environment `env`. -/
def zeroShotParams (env : Env) : ModelParams :=
  { ModelID := env "MODEL_ID", Temperature := Float64.ofRatio 3 10,
    TopP := Float64.ofRatio 10 10, TopK := 500, MaxTokens := 500 }

/-- The parameters of the few-shot examples in the environment `env`. -/
def fewShotParams (env : Env) : ModelParams :=
  { ModelID := env "MODEL_ID", Temperature := Float64.ofRatio 5 10,
    TopP := Float64.ofRatio 10 10, TopK := 500, MaxTokens := 800 }

/-- The parameters of the chain-of-thought examples in the environment `env`. -/
def chainOfThoughtParams (env : Env) : ModelParams :=
  { ModelID := env "MODEL_ID", Temperature := Float64.ofRatio 4 10,
    TopP := Float64.ofRatio 10 10, TopK := 500, MaxTokens := 1000 }

/-- The four zero-shot calls, in order. -/
def zeroShotCalls (env : Env) : List (String × ModelParams) :=
  [ (ZeroShotPrompt.textClassificationPrompt, zeroShotParams env),
    (ZeroShotPrompt.questionAnsweringPrompt, zeroShotParams env),
    (ZeroShotPrompt.languageTranslationPrompt, zeroShotParams env),
    (ZeroShotPrompt.codeGenerationPrompt, zeroShotParams env) ]

/-- The five few-shot calls, in order. -/
def fewShotCalls (env : Env) : List (String × ModelParams) :=
  [ (FewShotPrompt.sentimentAnalysisPrompt, fewShotParams env),
    (FewShotPrompt.entityExtractionPrompt, fewShotParams env),
    (FewShotPrompt.codeCompletionPrompt, fewShotParams env),
    (FewShotPrompt.emailClassificationPrompt, fewShotParams env),
    (FewShotPrompt.creativeWritingPrompt, { fewShotParams env with Temperature := Float64.ofRatio 8 10 }) ]

/-- The five chain-of-thought calls, in order. -/
def chainOfThoughtCalls (env : Env) : List (String × ModelParams) :=
  [ (ChainOfThoughtPrompt.mathProblemSolvingPrompt, chainOfThoughtParams env),
    (ChainOfThoughtPrompt.logicalReasoningPrompt, chainOfThoughtParams env),
    (ChainOfThoughtPrompt.problemDecompositionPrompt, chainOfThoughtParams env),
    (ChainOfThoughtPrompt.codeDebuggingPrompt, chainOfThoughtParams env),
    (ChainOfThoughtPrompt.decisionMakingPrompt, chainOfThoughtParams env) ]

/-- The world once the calls `calls` have been made from `w`, each sending its request. -/
def worldAfter (w : World) (calls : List (String × ModelParams)) : World :=
  { invoked := w.invoked ++ calls,
    requests := w.requests ++ calls.map (fun x => requestOf x.1 x.2) }

/-- The ranges documented on `ModelParams`. -/
def inRange (p : ModelParams) : Prop :=
  p.Temperature.IsFinite = true ∧ 0 ≤ p.Temperature.toRat ∧ p.Temperature.toRat ≤ 1 ∧
  p.TopP.IsFinite = true ∧ 0 ≤ p.TopP.toRat ∧ p.TopP.toRat ≤ 1 ∧
  0 < p.TopK ∧ 0 < p.MaxTokens

/-- The line leaves interactive mode: trimmed and lower-cased, it is `exit`. -/
def isExitLine (line : String) : Bool :=
  ToLower (TrimSpace line) == "exit"

/-- The line is empty once it is trimmed. -/
def isBlankLine (line : String) : Bool :=
  TrimSpace line == ""

/-- The calls interactive mode makes for lines none of which is an exit line: one call
for each line that is not blank, with the trimmed line and the default parameters. -/
def interactiveCalls (env : Env) (lines : List String) : List (String × ModelParams) :=
  (lines.filter (fun l => !isBlankLine l)).map
    (fun l => (TrimSpace l, GetDefaultClaudeParams env))

/-! ### A decoder for JSON objects -/

/-- JSON white space. -/
def isJsonSpace (c : Char) : Bool :=
  c == ' ' || c == '\t' || c == '\n' || c == '\r'

/-- Drop leading white space. -/
def skipSpace (text : List Char) : List Char :=
  text.dropWhile isJsonSpace

/-- Value of a hexadecimal digit. -/
def hexValue (c : Char) : Option Nat :=
  if '0' ≤ c ∧ c ≤ '9' then some (c.toNat - 48)
  else if 'a' ≤ c ∧ c ≤ 'f' then some (c.toNat - 87)
  else if 'A' ≤ c ∧ c ≤ 'F' then some (c.toNat - 55)
  else none

/-- Value of four hexadecimal digits. -/
def hex4 (a b c d : Char) : Option Nat :=
  match hexValue a, hexValue b, hexValue c, hexValue d with
  | some x, some y, some z, some u => some (x * 4096 + y * 256 + z * 16 + u)
  | _, _, _, _ => none

/-- The rune of a one-letter escape. -/
def simpleEscape (e : Char) : Option Char :=
  if e = '"' then some '"'
  else if e = '\\' then some '\\'
  else if e = '/' then some '/'
  else if e = 'b' then some '\x08'
  else if e = 'f' then some '\x0c'
  else if e = 'n' then some '\n'
  else if e = 'r' then some '\r'
  else if e = 't' then some '\t'
  else none

/-- The second half of a surrogate pair that starts with the code unit `hi`, when the text
goes on with the escape of a low surrogate: the rune of the pair and the text after it. -/
def lowSurrogate (hi : Nat) (text : List Char) : Option (Char × List Char) :=
  match text with
  | b :: u :: h1 :: h2 :: h3 :: h4 :: rest =>
    if b = '\\' ∧ u = 'u' ∧ hi < 0xDC00 then
      match hex4 h1 h2 h3 h4 with
      | some lo =>
        if 0xDC00 ≤ lo ∧ lo < 0xE000 then
          some (Char.ofNat (0x10000 + (hi - 0xD800) * 1024 + (lo - 0xDC00)), rest)
        else none
      | none => none
    else none
  | _ => none

/-- Read a string literal from the character after its opening quote: the string read so
far is `acc`, reversed. The result is the string and the text after the closing quote.
Escapes are decoded; a lone surrogate escape stands for U+FFFD; a control character or
an unknown escape is an error. `fuel` bounds the number of runes read. -/
def unquote : Nat → List Char → List Char → Option (String × List Char)
  | 0, _, _ => none
  | _ + 1, [], _ => none
  | fuel + 1, c :: cs, acc =>
    if c = '"' then some (String.mk acc.reverse, cs)
    else if c = '\\' then
      match cs with
      | [] => none
      | e :: cs =>
        if e = 'u' then
          match cs with
          | h1 :: h2 :: h3 :: h4 :: cs =>
            match hex4 h1 h2 h3 h4 with
            | none => none
            | some v =>
              if 0xD800 ≤ v ∧ v < 0xE000 then
                match lowSurrogate v cs with
                | some (r, cs) => unquote fuel cs (r :: acc)
                | none => unquote fuel cs ('\uFFFD' :: acc)
              else unquote fuel cs (Char.ofNat v :: acc)
          | _ => none
        else
          match simpleEscape e with
          | some r => unquote fuel cs (r :: acc)
          | none => none
    else if c.toNat < 0x20 then none
    else unquote fuel cs (c :: acc)

/-- The characters a number literal is made of. -/
def isNumberChar (c : Char) : Bool :=
  ('0' ≤ c && c ≤ '9') || c == '-' || c == '+' || c == '.' || c == 'e' || c == 'E'

/-- A text that starts like a number (a minus sign or a digit) and is made of number
characters. -/
def isNumberText (text : List Char) : Bool :=
  match text with
  | [] => false
  | c :: _ => (c == '-' || ('0' ≤ c && c ≤ '9')) && text.all isNumberChar

/-- Read a value that is a string or a number (kept as its text, the longest run of number
characters): the value and the text after it. Other values are not read. -/
def decodeValue (text : List Char) : Option (Json × List Char) :=
  match text with
  | [] => none
  | c :: cs =>
    if c = '"' then
      match unquote text.length cs [] with
      | some (s, rest) => some (.string s, rest)
      | none => none
    else if c = '-' ∨ ('0' ≤ c ∧ c ≤ '9') then
      some (.number (.literal (String.mk (text.takeWhile isNumberChar))),
        text.dropWhile isNumberChar)
    else none

/-- Read the members of an object from its first key to its closing brace: the members
read so far are `acc`, reversed. `fuel` bounds the number of members. -/
def decodeMembers : Nat → List Char → List (String × Json) →
    Option (List (String × Json) × List Char)
  | 0, _, _ => none
  | fuel + 1, text, acc =>
    match skipSpace text with
    | [] => none
    | q :: cs =>
      if q = '"' then
        match unquote text.length cs [] with
        | none => none
        | some (key, afterKey) =>
          match skipSpace afterKey with
          | [] => none
          | colon :: afterColon =>
            if colon = ':' then
              match decodeValue (skipSpace afterColon) with
              | none => none
              | some (v, afterValue) =>
                match skipSpace afterValue with
                | [] => none
                | d :: next =>
                  if d = ',' then decodeMembers fuel next ((key, v) :: acc)
                  else if d = '}' then some (((key, v) :: acc).reverse, next)
                  else none
            else none
      else none

/-- Decode a JSON text that is an object whose values are strings and numbers, as a
request body is: its members in the order of the text. -/
def decodeObject (text : List Char) : Option (List (String × Json)) :=
  match skipSpace text with
  | [] => none
  | b :: cs =>
    if b = '{' then
      match skipSpace cs with
      | [] => none
      | e :: rest =>
        if e = '}' then (if skipSpace rest = [] then some [] else none)
        else
          match decodeMembers text.length cs [] with
          | some (members, rest) => if skipSpace rest = [] then some members else none
          | none => none
    else none

/-- The value of the first member named `key`. -/
def memberNamed (key : String) (members : List (String × Json)) : Option Json :=
  (members.find? (fun kv => kv.1 == key)).map Prod.snd

/-- The number texts of a sample: 0.7 and 1 as `strconv` writes them (the default
temperature and top-p), and `0` for any other value, which the sample does not use. -/
def sampleFormat (f : Float64) : List Char :=
  if f = Float64.ofRatio 7 10 then ['0', '.', '7']
  else if f = Float64.ofRatio 10 10 then ['1']
  else ['0']

/-- A value the decoder reads: a string, or a number whose text starts like a number and
is made of number characters. -/
def isFlatValue (formatFloat : Float64 → List Char) : Json → Bool
  | .string _ => true
  | .number n => isNumberText (n.text formatFloat)
  | _ => false

/-- What the decoder gives for the text of a value it reads: a string as it is, a number as
its text. -/
def readBack (formatFloat : Float64 → List Char) : Json → Json
  | .number n => .number (.literal (String.mk (n.text formatFloat)))
  | v => v

/-- An error standing for that of an attempt the service answers with the HTTP status 500
(the text the SDK gives such an error is longer). -/
def status500 : GoError :=
  .sdk "https response error StatusCode: 500"

/-- The retryer of a client built from a configuration that names none: the standard
retryer with `DefaultMaxAttempts` attempts, for which a status 500 is retryable; its
quota is full when the program starts and is taken not to be used up. -/
def standardRetryer : Retryer :=
  { MaxAttempts := DefaultMaxAttempts,
    IsErrorRetryable := fun err => decide (err = status500),
    GetRetryToken := fun _ _ => none }

/-- The configuration of a client with the standard retryer whose steps before the retry
loop succeed (the input is valid, the credentials and the endpoint resolve). -/
def standardConfig (endpoint : Endpoint) : Config :=
  { retryer := standardRetryer, before := fun _ _ => none, endpoint := endpoint }

/-- A service that answers every attempt with the status 500. -/
def unavailable : Endpoint :=
  fun _ _ => .error status500

/-- A service that answers the first two attempts with the status 500 and every later one
with the response body `body`. -/
def recovering (body : ResponseBody) : Endpoint :=
  fun sent _ => if sent.length < 2 then .error status500 else .ok body

/-- The wrapper around the SDK client built from the configuration `cfg`. -/
def sdkClient (cfg : Config) : Client :=
  { client := NewFromConfig cfg }

end Claims

/-! ## Lemmas -/

namespace Claims
open Bedrock Prompting Main

theorem sortedEntries_requestBody (prompt : String) (p : ModelParams) :
    sortedEntries (requestBody prompt p) =
      [ ("max_tokens_to_sample", .int p.MaxTokens),
        ("prompt", .string ("\n\nHuman: " ++ prompt ++ "\n\nAssistant:")),
        ("temperature", .float64 p.Temperature),
        ("top_k", .int p.TopK),
        ("top_p", .float64 p.TopP) ] := rfl

theorem inf_or_nan_of_not_finite (f : Float64) (h : f.IsFinite = false) :
    (f.IsInf || f.IsNaN) = true := by
  unfold Float64.IsFinite at h
  cases h1 : f.IsInf <;> cases h2 : f.IsNaN <;> simp_all

theorem not_inf_or_nan_of_finite (f : Float64) (h : f.IsFinite = true) :
    (f.IsInf || f.IsNaN) = false := by
  unfold Float64.IsFinite at h
  cases h1 : f.IsInf <;> cases h2 : f.IsNaN <;> simp_all

theorem marshal_requestBody_of_finite (prompt : String) (p : ModelParams)
    (hT : p.Temperature.IsFinite = true) (hP : p.TopP.IsFinite = true) :
    Marshal (requestBody prompt p) = .ok (bodyOf prompt p) := by
  have hT' := not_inf_or_nan_of_finite _ hT
  have hP' := not_inf_or_nan_of_finite _ hP
  simp only [Marshal, sortedEntries_requestBody, encodeEntries, encodeValue, hT', hP', bodyOf,
    wrapped]
  simp

theorem marshal_requestBody_temperature (prompt : String) (p : ModelParams)
    (hT : p.Temperature.IsFinite = false) :
    Marshal (requestBody prompt p)
      = .error (.UnsupportedValueError p.Temperature.formatNonFinite) := by
  have hT' := inf_or_nan_of_not_finite _ hT
  simp only [Marshal, sortedEntries_requestBody, encodeEntries, encodeValue, hT']
  simp

theorem marshal_requestBody_topP (prompt : String) (p : ModelParams)
    (hT : p.Temperature.IsFinite = true) (hP : p.TopP.IsFinite = false) :
    Marshal (requestBody prompt p)
      = .error (.UnsupportedValueError p.TopP.formatNonFinite) := by
  have hT' := not_inf_or_nan_of_finite _ hT
  have hP' := inf_or_nan_of_not_finite _ hP
  simp only [Marshal, sortedEntries_requestBody, encodeEntries, encodeValue, hT', hP']
  simp

/-- The call of `InvokeModel` when the body marshals. -/
theorem invokeModel_of_finite (c : Client) (prompt : String) (p : ModelParams) (w : World)
    (h : finiteParams p = true) :
    c.InvokeModel prompt p w =
      (match c.client w.requests (requestOf prompt p) with
        | .error err => (none, some (Errorf "failed to invoke model: " err))
        | .ok body =>
          match Unmarshal body with
          | (_, some err) => (none, some (Errorf "failed to unmarshal response: " err))
          | (modelResp, none) => (some modelResp, none),
       { invoked := w.invoked ++ [(prompt, p)],
         requests := w.requests ++ [requestOf prompt p] }) := by
  simp only [finiteParams, Bool.and_eq_true] at h
  simp only [Client.InvokeModel, marshal_requestBody_of_finite prompt p h.1 h.2, requestOf]
  cases hr : c.client w.requests
      { ModelId := p.ModelID, Body := bodyOf prompt p, ContentType := "application/json" } with
  | error err => rfl
  | ok body =>
    simp only
    rcases hu : Unmarshal body with ⟨m, _ | e⟩ <;> rfl

/-- The call of `InvokeModel` when the body does not marshal. -/
theorem invokeModel_of_not_finite (c : Client) (prompt : String) (p : ModelParams) (w : World)
    (h : finiteParams p = false) :
    ∃ err, Marshal (requestBody prompt p) = .error err ∧
      c.InvokeModel prompt p w =
        ((none, some (Errorf "failed to marshal request body: " err)),
         { invoked := w.invoked ++ [(prompt, p)], requests := w.requests }) := by
  cases hT : p.Temperature.IsFinite with
  | false =>
    refine ⟨_, marshal_requestBody_temperature prompt p hT, ?_⟩
    simp only [Client.InvokeModel, marshal_requestBody_temperature prompt p hT]
  | true =>
    have hP : p.TopP.IsFinite = false := by simpa [finiteParams, hT] using h
    refine ⟨_, marshal_requestBody_topP prompt p hT hP, ?_⟩
    simp only [Client.InvokeModel, marshal_requestBody_topP prompt p hT hP]

/-! ### Decoding -/

theorem mem_all (f : Field) : f ∈ Field.all := by
  cases f <;> simp [Field.all]

theorem names_of_name_eq (f : Field) (key : String) (h : (f.name == key) = true) :
    names key f = true := by
  have hk : key = f.name := (eq_of_beq h).symm
  subst hk
  cases f <;> decide

theorem names_unique (f g : Field) (key : String) (hf : names key f = true)
    (hg : names key g = true) : f = g := by
  simp only [names, equalFold, beq_iff_eq] at hf hg
  have h : f.name.data = g.name.data := hf.trans hg.symm
  cases f <;> cases g <;> first | rfl | (exact absurd h (by decide))

theorem fieldFor_eq_some (key : String) (f : Field) :
    fieldFor key = some f ↔ names key f = true := by
  have fwd : ∀ g, fieldFor key = some g → names key g = true := by
    intro g hg
    unfold fieldFor at hg
    split at hg
    · next f' hf' =>
      have := List.find?_some hf'
      cases hg
      exact names_of_name_eq _ _ this
    · exact List.find?_some hg
  refine ⟨fwd f, fun h => ?_⟩
  cases hk : fieldFor key with
  | some g => rw [names_unique f g key h (fwd g hk)]
  | none =>
    exfalso
    unfold fieldFor at hk
    split at hk
    · cases hk
    · rw [List.find?_eq_none] at hk
      exact hk f (mem_all f) h

theorem fieldFor_eq_none (key : String) :
    fieldFor key = none ↔ Field.all.all (fun f => !names key f) = true := by
  constructor
  · intro h
    rw [List.all_eq_true]
    intro f _
    cases hn : names key f with
    | false => rfl
    | true => rw [(fieldFor_eq_some key f).2 hn] at h; cases h
  · intro h
    cases hk : fieldFor key with
    | none => rfl
    | some f =>
      have := (fieldFor_eq_some key f).1 hk
      rw [List.all_eq_true] at h
      have := h f (mem_all f)
      simp_all

theorem get_set (f g : Field) (s : String) (v : ModelResponse) :
    f.get (g.set s v) = if g = f then s else f.get v := by
  cases f <;> cases g <;> rfl

theorem saveError_v (d : decodeState) (e : GoError) : (d.saveError e).v = d.v := by
  unfold decodeState.saveError; split <;> rfl

theorem saveError_ne_none (d : decodeState) (e : GoError) : (d.saveError e).savedError ≠ none := by
  unfold decodeState.saveError; split <;> simp_all

theorem store_get (d : decodeState) (f g : Field) (item : Json) :
    f.get (d.store g item).v = ((if g = f then stringOf item else none).getD (f.get d.v)) := by
  cases item <;> simp only [decodeState.store, saveError_v, stringOf, get_set] <;>
    split <;> simp_all

theorem store_savedError (d : decodeState) (g : Field) (item : Json) :
    (d.store g item).savedError = none ↔ d.savedError = none ∧ isStringOrNull item = true := by
  cases item <;> simp [decodeState.store, isStringOrNull, saveError_ne_none]

theorem object_get (f : Field) (members : List (String × Json)) :
    ∀ d : decodeState, f.get (d.object members).v = (lastString? f members).getD (f.get d.v) := by
  induction members with
  | nil => intro d; rfl
  | cons kv rest ih =>
    obtain ⟨key, item⟩ := kv
    intro d
    simp only [decodeState.object, lastString?]
    cases hk : fieldFor key with
    | none =>
      have hn : names key f = false := by
        cases hn : names key f with
        | false => rfl
        | true => rw [(fieldFor_eq_some key f).2 hn] at hk; cases hk
      simp only [ih, hn]
      cases lastString? f rest <;> simp
    | some g =>
      simp only [ih, store_get]
      cases hl : lastString? f rest with
      | some s => simp
      | none =>
        by_cases hgf : g = f
        · subst hgf
          simp [(fieldFor_eq_some key g).1 hk]
        · have hn : names key f = false := by
            cases hn : names key f with
            | false => rfl
            | true =>
              rw [(fieldFor_eq_some key f).2 hn] at hk
              exact absurd (Option.some.inj hk).symm hgf
          simp [hgf, hn]

theorem object_savedError (members : List (String × Json)) :
    ∀ d : decodeState, (d.object members).savedError = none ↔
      d.savedError = none ∧ wellTyped members = true := by
  induction members with
  | nil => intro d; simp [decodeState.object, wellTyped]
  | cons kv rest ih =>
    obtain ⟨key, item⟩ := kv
    intro d
    have hw : wellTyped ((key, item) :: rest) =
        ((isStringOrNull item || Field.all.all (fun f => !names key f)) && wellTyped rest) := by
      simp [wellTyped]
    simp only [decodeState.object, hw]
    cases hk : fieldFor key with
    | none =>
      have := (fieldFor_eq_none key).1 hk
      simp [ih, this]
    | some g =>
      have hn : Field.all.all (fun f => !names key f) = false := by
        cases hall : Field.all.all (fun f => !names key f) with
        | false => rfl
        | true => rw [(fieldFor_eq_none key).2 hall] at hk; cases hk
      simp [ih, store_savedError, hn, and_assoc]

theorem ext_fields (a b : ModelResponse) (h : ∀ f : Field, f.get a = f.get b) : a = b := by
  have h1 := h .Type_
  have h2 := h .Completion
  have h3 := h .StopReason
  have h4 := h .Stop
  cases a; cases b
  simp only [Field.get] at h1 h2 h3 h4
  simp [h1, h2, h3, h4]

theorem unmarshal_object (members : List (String × Json)) :
    Unmarshal (.document (.object members)) =
      (responseOf members, (decodeState.object ⟨⟨"", "", "", ""⟩, none⟩ members).savedError) := by
  simp only [Unmarshal]
  congr 1
  apply ext_fields
  intro f
  rw [object_get]
  cases f <;> rfl

theorem unmarshal_error_iff (doc : Json) :
    (Unmarshal (.document doc)).2 = none ↔ decodes doc = true := by
  cases doc with
  | object members => simp [unmarshal_object, object_savedError, decodes]
  | null => simp [Unmarshal, decodes]
  | bool b => simp [Unmarshal, decodes, saveError_ne_none]
  | number n => simp [Unmarshal, decodes, saveError_ne_none]
  | string s => simp [Unmarshal, decodes, saveError_ne_none]
  | array items => simp [Unmarshal, decodes, saveError_ne_none]

/-! ### The example methods -/

theorem ZeroShotPrompt_ExecuteTextClassification_eq (z : ZeroShotPrompt) (w : World) :
    z.ExecuteTextClassification w =
      ((z.client.InvokeModel ZeroShotPrompt.textClassificationPrompt z.params w).1.2.map
          (Errorf "failed to execute text classification: "),
        z, (z.client.InvokeModel ZeroShotPrompt.textClassificationPrompt z.params w).2) := by
  unfold ZeroShotPrompt.ExecuteTextClassification
  dsimp only
  generalize z.client.InvokeModel ZeroShotPrompt.textClassificationPrompt z.params w = res
  rcases res with ⟨⟨r, _ | e⟩, w1⟩
  · exact rfl
  · exact rfl

theorem ZeroShotPrompt_ExecuteQuestionAnswering_eq (z : ZeroShotPrompt) (w : World) :
    z.ExecuteQuestionAnswering w =
      ((z.client.InvokeModel ZeroShotPrompt.questionAnsweringPrompt z.params w).1.2.map
          (Errorf "failed to execute question answering: "),
        z, (z.client.InvokeModel ZeroShotPrompt.questionAnsweringPrompt z.params w).2) := by
  unfold ZeroShotPrompt.ExecuteQuestionAnswering
  dsimp only
  generalize z.client.InvokeModel ZeroShotPrompt.questionAnsweringPrompt z.params w = res
  rcases res with ⟨⟨r, _ | e⟩, w1⟩
  · exact rfl
  · exact rfl

theorem ZeroShotPrompt_ExecuteLanguageTranslation_eq (z : ZeroShotPrompt) (w : World) :
    z.ExecuteLanguageTranslation w =
      ((z.client.InvokeModel ZeroShotPrompt.languageTranslationPrompt z.params w).1.2.map
          (Errorf "failed to execute language translation: "),
        z, (z.client.InvokeModel ZeroShotPrompt.languageTranslationPrompt z.params w).2) := by
  unfold ZeroShotPrompt.ExecuteLanguageTranslation
  dsimp only
  generalize z.client.InvokeModel ZeroShotPrompt.languageTranslationPrompt z.params w = res
  rcases res with ⟨⟨r, _ | e⟩, w1⟩
  · exact rfl
  · exact rfl

theorem ZeroShotPrompt_ExecuteCodeGeneration_eq (z : ZeroShotPrompt) (w : World) :
    z.ExecuteCodeGeneration w =
      ((z.client.InvokeModel ZeroShotPrompt.codeGenerationPrompt z.params w).1.2.map
          (Errorf "failed to execute code generation: "),
        z, (z.client.InvokeModel ZeroShotPrompt.codeGenerationPrompt z.params w).2) := by
  unfold ZeroShotPrompt.ExecuteCodeGeneration
  dsimp only
  generalize z.client.InvokeModel ZeroShotPrompt.codeGenerationPrompt z.params w = res
  rcases res with ⟨⟨r, _ | e⟩, w1⟩
  · exact rfl
  · exact rfl

theorem FewShotPrompt_ExecuteSentimentAnalysis_eq (z : FewShotPrompt) (w : World) :
    z.ExecuteSentimentAnalysis w =
      ((z.client.InvokeModel FewShotPrompt.sentimentAnalysisPrompt z.params w).1.2.map
          (Errorf "failed to execute sentiment analysis: "),
        z, (z.client.InvokeModel FewShotPrompt.sentimentAnalysisPrompt z.params w).2) := by
  unfold FewShotPrompt.ExecuteSentimentAnalysis
  dsimp only
  generalize z.client.InvokeModel FewShotPrompt.sentimentAnalysisPrompt z.params w = res
  rcases res with ⟨⟨r, _ | e⟩, w1⟩
  · exact rfl
  · exact rfl

theorem FewShotPrompt_ExecuteEntityExtraction_eq (z : FewShotPrompt) (w : World) :
    z.ExecuteEntityExtraction w =
      ((z.client.InvokeModel FewShotPrompt.entityExtractionPrompt z.params w).1.2.map
          (Errorf "failed to execute entity extraction: "),
        z, (z.client.InvokeModel FewShotPrompt.entityExtractionPrompt z.params w).2) := by
  unfold FewShotPrompt.ExecuteEntityExtraction
  dsimp only
  generalize z.client.InvokeModel FewShotPrompt.entityExtractionPrompt z.params w = res
  rcases res with ⟨⟨r, _ | e⟩, w1⟩
  · exact rfl
  · exact rfl

theorem FewShotPrompt_ExecuteCodeCompletion_eq (z : FewShotPrompt) (w : World) :
    z.ExecuteCodeCompletion w =
      ((z.client.InvokeModel FewShotPrompt.codeCompletionPrompt z.params w).1.2.map
          (Errorf "failed to execute code completion: "),
        z, (z.client.InvokeModel FewShotPrompt.codeCompletionPrompt z.params w).2) := by
  unfold FewShotPrompt.ExecuteCodeCompletion
  dsimp only
  generalize z.client.InvokeModel FewShotPrompt.codeCompletionPrompt z.params w = res
  rcases res with ⟨⟨r, _ | e⟩, w1⟩
  · exact rfl
  · exact rfl

theorem FewShotPrompt_ExecuteEmailClassification_eq (z : FewShotPrompt) (w : World) :
    z.ExecuteEmailClassification w =
      ((z.client.InvokeModel FewShotPrompt.emailClassificationPrompt z.params w).1.2.map
          (Errorf "failed to execute email classification: "),
        z, (z.client.InvokeModel FewShotPrompt.emailClassificationPrompt z.params w).2) := by
  unfold FewShotPrompt.ExecuteEmailClassification
  dsimp only
  generalize z.client.InvokeModel FewShotPrompt.emailClassificationPrompt z.params w = res
  rcases res with ⟨⟨r, _ | e⟩, w1⟩
  · exact rfl
  · exact rfl

theorem FewShotPrompt_ExecuteCreativeWriting_eq (z : FewShotPrompt) (w : World) :
    z.ExecuteCreativeWriting w =
      ((z.client.InvokeModel FewShotPrompt.creativeWritingPrompt ({ z.params with Temperature := Float64.ofRatio 8 10 }) w).1.2.map
          (Errorf "failed to execute creative writing: "),
        z, (z.client.InvokeModel FewShotPrompt.creativeWritingPrompt ({ z.params with Temperature := Float64.ofRatio 8 10 }) w).2) := by
  unfold FewShotPrompt.ExecuteCreativeWriting
  dsimp only
  generalize z.client.InvokeModel FewShotPrompt.creativeWritingPrompt ({ z.params with Temperature := Float64.ofRatio 8 10 }) w = res
  rcases res with ⟨⟨r, _ | e⟩, w1⟩
  · exact rfl
  · exact rfl

theorem ChainOfThoughtPrompt_ExecuteMathProblemSolving_eq (z : ChainOfThoughtPrompt) (w : World) :
    z.ExecuteMathProblemSolving w =
      ((z.client.InvokeModel ChainOfThoughtPrompt.mathProblemSolvingPrompt z.params w).1.2.map
          (Errorf "failed to execute math problem solving: "),
        z, (z.client.InvokeModel ChainOfThoughtPrompt.mathProblemSolvingPrompt z.params w).2) := by
  unfold ChainOfThoughtPrompt.ExecuteMathProblemSolving
  dsimp only
  generalize z.client.InvokeModel ChainOfThoughtPrompt.mathProblemSolvingPrompt z.params w = res
  rcases res with ⟨⟨r, _ | e⟩, w1⟩
  · exact rfl
  · exact rfl

theorem ChainOfThoughtPrompt_ExecuteLogicalReasoning_eq (z : ChainOfThoughtPrompt) (w : World) :
    z.ExecuteLogicalReasoning w =
      ((z.client.InvokeModel ChainOfThoughtPrompt.logicalReasoningPrompt z.params w).1.2.map
          (Errorf "failed to execute logical reasoning: "),
        z, (z.client.InvokeModel ChainOfThoughtPrompt.logicalReasoningPrompt z.params w).2) := by
  unfold ChainOfThoughtPrompt.ExecuteLogicalReasoning
  dsimp only
  generalize z.client.InvokeModel ChainOfThoughtPrompt.logicalReasoningPrompt z.params w = res
  rcases res with ⟨⟨r, _ | e⟩, w1⟩
  · exact rfl
  · exact rfl

theorem ChainOfThoughtPrompt_ExecuteProblemDecomposition_eq (z : ChainOfThoughtPrompt) (w : World) :
    z.ExecuteProblemDecomposition w =
      ((z.client.InvokeModel ChainOfThoughtPrompt.problemDecompositionPrompt z.params w).1.2.map
          (Errorf "failed to execute problem decomposition: "),
        z, (z.client.InvokeModel ChainOfThoughtPrompt.problemDecompositionPrompt z.params w).2) := by
  unfold ChainOfThoughtPrompt.ExecuteProblemDecomposition
  dsimp only
  generalize z.client.InvokeModel ChainOfThoughtPrompt.problemDecompositionPrompt z.params w = res
  rcases res with ⟨⟨r, _ | e⟩, w1⟩
  · exact rfl
  · exact rfl

theorem ChainOfThoughtPrompt_ExecuteCodeDebugging_eq (z : ChainOfThoughtPrompt) (w : World) :
    z.ExecuteCodeDebugging w =
      ((z.client.InvokeModel ChainOfThoughtPrompt.codeDebuggingPrompt z.params w).1.2.map
          (Errorf "failed to execute code debugging: "),
        z, (z.client.InvokeModel ChainOfThoughtPrompt.codeDebuggingPrompt z.params w).2) := by
  unfold ChainOfThoughtPrompt.ExecuteCodeDebugging
  dsimp only
  generalize z.client.InvokeModel ChainOfThoughtPrompt.codeDebuggingPrompt z.params w = res
  rcases res with ⟨⟨r, _ | e⟩, w1⟩
  · exact rfl
  · exact rfl

theorem ChainOfThoughtPrompt_ExecuteDecisionMaking_eq (z : ChainOfThoughtPrompt) (w : World) :
    z.ExecuteDecisionMaking w =
      ((z.client.InvokeModel ChainOfThoughtPrompt.decisionMakingPrompt z.params w).1.2.map
          (Errorf "failed to execute decision making: "),
        z, (z.client.InvokeModel ChainOfThoughtPrompt.decisionMakingPrompt z.params w).2) := by
  unfold ChainOfThoughtPrompt.ExecuteDecisionMaking
  dsimp only
  generalize z.client.InvokeModel ChainOfThoughtPrompt.decisionMakingPrompt z.params w = res
  rcases res with ⟨⟨r, _ | e⟩, w1⟩
  · exact rfl
  · exact rfl

/-! ### The float constants of the source -/

theorem bits_3_10 : (Float64.ofRatio 3 10).bits = 0x3FD3333333333333 := by decide

theorem bits_4_10 : (Float64.ofRatio 4 10).bits = 0x3FD999999999999A := by decide

theorem bits_5_10 : (Float64.ofRatio 5 10).bits = 0x3FE0000000000000 := by decide

theorem bits_7_10 : (Float64.ofRatio 7 10).bits = 0x3FE6666666666666 := by decide

theorem bits_8_10 : (Float64.ofRatio 8 10).bits = 0x3FE999999999999A := by decide

theorem bits_10_10 : (Float64.ofRatio 10 10).bits = 0x3FF0000000000000 := by decide

theorem fields_3_10 :
    (Float64.ofRatio 3 10).sign = false ∧ (Float64.ofRatio 3 10).expo.val = 1021 ∧
      (Float64.ofRatio 3 10).frac.val = 900719925474099 := by decide

theorem toRat_3_10 : (Float64.ofRatio 3 10).toRat = 5404319552844595 / 18014398509481984 := by
  obtain ⟨h1, h2, h3⟩ := fields_3_10
  simp only [Float64.toRat, h1, h2, h3]
  norm_num

theorem fields_4_10 :
    (Float64.ofRatio 4 10).sign = false ∧ (Float64.ofRatio 4 10).expo.val = 1021 ∧
      (Float64.ofRatio 4 10).frac.val = 2702159776422298 := by decide

theorem toRat_4_10 : (Float64.ofRatio 4 10).toRat = 3602879701896397 / 9007199254740992 := by
  obtain ⟨h1, h2, h3⟩ := fields_4_10
  simp only [Float64.toRat, h1, h2, h3]
  norm_num

theorem fields_5_10 :
    (Float64.ofRatio 5 10).sign = false ∧ (Float64.ofRatio 5 10).expo.val = 1022 ∧
      (Float64.ofRatio 5 10).frac.val = 0 := by decide

theorem toRat_5_10 : (Float64.ofRatio 5 10).toRat = 1 / 2 := by
  obtain ⟨h1, h2, h3⟩ := fields_5_10
  simp only [Float64.toRat, h1, h2, h3]
  norm_num

theorem fields_7_10 :
    (Float64.ofRatio 7 10).sign = false ∧ (Float64.ofRatio 7 10).expo.val = 1022 ∧
      (Float64.ofRatio 7 10).frac.val = 1801439850948198 := by decide

theorem toRat_7_10 : (Float64.ofRatio 7 10).toRat = 3152519739159347 / 4503599627370496 := by
  obtain ⟨h1, h2, h3⟩ := fields_7_10
  simp only [Float64.toRat, h1, h2, h3]
  norm_num

theorem fields_8_10 :
    (Float64.ofRatio 8 10).sign = false ∧ (Float64.ofRatio 8 10).expo.val = 1022 ∧
      (Float64.ofRatio 8 10).frac.val = 2702159776422298 := by decide

theorem toRat_8_10 : (Float64.ofRatio 8 10).toRat = 3602879701896397 / 4503599627370496 := by
  obtain ⟨h1, h2, h3⟩ := fields_8_10
  simp only [Float64.toRat, h1, h2, h3]
  norm_num

theorem fields_10_10 :
    (Float64.ofRatio 10 10).sign = false ∧ (Float64.ofRatio 10 10).expo.val = 1023 ∧
      (Float64.ofRatio 10 10).frac.val = 0 := by decide

theorem toRat_10_10 : (Float64.ofRatio 10 10).toRat = 1 / 1 := by
  obtain ⟨h1, h2, h3⟩ := fields_10_10
  simp only [Float64.toRat, h1, h2, h3]
  norm_num

/-! ### The effect of one call on the world -/

theorem invokeModel_world (c : Client) (prompt : String) (p : ModelParams) (w : World) :
    (c.InvokeModel prompt p w).2 =
      { invoked := w.invoked ++ [(prompt, p)],
        requests := w.requests ++ (if finiteParams p = true then [requestOf prompt p] else []) } := by
  cases h : finiteParams p with
  | true => rw [invokeModel_of_finite c prompt p w h]; simp
  | false =>
    obtain ⟨err, _, he⟩ := invokeModel_of_not_finite c prompt p w h
    rw [he]; simp

theorem sampleParams_finite : finiteParams sampleParams = true := by decide

/-! ### No example changes its receiver -/

theorem ZeroShotPrompt_examples_receiver :
    ∀ ex ∈ ZeroShotPrompt.examples, ∀ (z : ZeroShotPrompt) (w : World), (ex.2 z w).2.1 = z := by
  intro ex hex z w
  simp only [ZeroShotPrompt.examples, List.mem_cons, List.mem_singleton, List.not_mem_nil,
    or_false] at hex
  rcases hex with rfl | rfl | rfl | rfl <;> simp only [ZeroShotPrompt_ExecuteTextClassification_eq, ZeroShotPrompt_ExecuteQuestionAnswering_eq, ZeroShotPrompt_ExecuteLanguageTranslation_eq, ZeroShotPrompt_ExecuteCodeGeneration_eq]

theorem FewShotPrompt_examples_receiver :
    ∀ ex ∈ FewShotPrompt.examples, ∀ (z : FewShotPrompt) (w : World), (ex.2 z w).2.1 = z := by
  intro ex hex z w
  simp only [FewShotPrompt.examples, List.mem_cons, List.mem_singleton, List.not_mem_nil,
    or_false] at hex
  rcases hex with rfl | rfl | rfl | rfl | rfl <;> simp only [FewShotPrompt_ExecuteSentimentAnalysis_eq, FewShotPrompt_ExecuteEntityExtraction_eq, FewShotPrompt_ExecuteCodeCompletion_eq, FewShotPrompt_ExecuteEmailClassification_eq, FewShotPrompt_ExecuteCreativeWriting_eq]

theorem ChainOfThoughtPrompt_examples_receiver :
    ∀ ex ∈ ChainOfThoughtPrompt.examples, ∀ (z : ChainOfThoughtPrompt) (w : World), (ex.2 z w).2.1 = z := by
  intro ex hex z w
  simp only [ChainOfThoughtPrompt.examples, List.mem_cons, List.mem_singleton, List.not_mem_nil,
    or_false] at hex
  rcases hex with rfl | rfl | rfl | rfl | rfl <;> simp only [ChainOfThoughtPrompt_ExecuteMathProblemSolving_eq, ChainOfThoughtPrompt_ExecuteLogicalReasoning_eq, ChainOfThoughtPrompt_ExecuteProblemDecomposition_eq, ChainOfThoughtPrompt_ExecuteCodeDebugging_eq, ChainOfThoughtPrompt_ExecuteDecisionMaking_eq]

/-! ### The runs of the examples -/

theorem fin_3_10 : (Float64.ofRatio 3 10).IsFinite = true := by decide
theorem fin_4_10 : (Float64.ofRatio 4 10).IsFinite = true := by decide
theorem fin_5_10 : (Float64.ofRatio 5 10).IsFinite = true := by decide
theorem fin_7_10 : (Float64.ofRatio 7 10).IsFinite = true := by decide
theorem fin_8_10 : (Float64.ofRatio 8 10).IsFinite = true := by decide
theorem fin_10_10 : (Float64.ofRatio 10 10).IsFinite = true := by decide

theorem after_after (w : World) (a b : List (String × ModelParams)) :
    worldAfter (worldAfter w a) b = worldAfter w (a ++ b) := by
  simp [worldAfter]

theorem runZeroShotExamples_eq (client : Client) (env : Env) (w : World) :
    runZeroShotExamples client env w = worldAfter w (zeroShotCalls env) := by
  have hp : (NewZeroShotPrompt client env).params = zeroShotParams env := rfl
  have hc : (NewZeroShotPrompt client env).client = client := rfl
  simp only [runZeroShotExamples, ZeroShotPrompt.RunAllExamples, ZeroShotPrompt.examples, List.foldl, ZeroShotPrompt_ExecuteTextClassification_eq, ZeroShotPrompt_ExecuteQuestionAnswering_eq, ZeroShotPrompt_ExecuteLanguageTranslation_eq, ZeroShotPrompt_ExecuteCodeGeneration_eq,
    hp, hc, invokeModel_world]
  simp [worldAfter, zeroShotCalls, finiteParams, zeroShotParams, fin_3_10, fin_4_10, fin_5_10, fin_8_10,
    fin_10_10]

theorem runFewShotExamples_eq (client : Client) (env : Env) (w : World) :
    runFewShotExamples client env w = worldAfter w (fewShotCalls env) := by
  have hp : (NewFewShotPrompt client env).params = fewShotParams env := rfl
  have hc : (NewFewShotPrompt client env).client = client := rfl
  simp only [runFewShotExamples, FewShotPrompt.RunAllExamples, FewShotPrompt.examples, List.foldl, FewShotPrompt_ExecuteSentimentAnalysis_eq, FewShotPrompt_ExecuteEntityExtraction_eq, FewShotPrompt_ExecuteCodeCompletion_eq, FewShotPrompt_ExecuteEmailClassification_eq, FewShotPrompt_ExecuteCreativeWriting_eq,
    hp, hc, invokeModel_world]
  simp [worldAfter, fewShotCalls, finiteParams, fewShotParams, fin_3_10, fin_4_10, fin_5_10, fin_8_10,
    fin_10_10]

theorem runChainOfThoughtExamples_eq (client : Client) (env : Env) (w : World) :
    runChainOfThoughtExamples client env w = worldAfter w (chainOfThoughtCalls env) := by
  have hp : (NewChainOfThoughtPrompt client env).params = chainOfThoughtParams env := rfl
  have hc : (NewChainOfThoughtPrompt client env).client = client := rfl
  simp only [runChainOfThoughtExamples, ChainOfThoughtPrompt.RunAllExamples, ChainOfThoughtPrompt.examples, List.foldl, ChainOfThoughtPrompt_ExecuteMathProblemSolving_eq, ChainOfThoughtPrompt_ExecuteLogicalReasoning_eq, ChainOfThoughtPrompt_ExecuteProblemDecomposition_eq, ChainOfThoughtPrompt_ExecuteCodeDebugging_eq, ChainOfThoughtPrompt_ExecuteDecisionMaking_eq,
    hp, hc, invokeModel_world]
  simp [worldAfter, chainOfThoughtCalls, finiteParams, chainOfThoughtParams, fin_3_10, fin_4_10, fin_5_10, fin_8_10,
    fin_10_10]

theorem runAllExamples_eq (client : Client) (env : Env) (w : World) :
    runAllExamples client env w
      = worldAfter w (zeroShotCalls env ++ fewShotCalls env ++ chainOfThoughtCalls env) := by
  simp only [runAllExamples, runZeroShotExamples_eq, runFewShotExamples_eq,
    runChainOfThoughtExamples_eq, after_after, List.append_assoc]

/-! ### The loops of `main.go` -/

theorem interactiveLoop_succ (client : Client) (params : ModelParams) (fuel : Nat)
    (stdin : Stdin) (w : World) :
    interactiveLoop client params (fuel + 1) stdin w =
      if ToLower (TrimSpace (ReadString stdin).1) = "exit" then (some (ReadString stdin).2, w)
      else if TrimSpace (ReadString stdin).1 = "" then
        interactiveLoop client params fuel (ReadString stdin).2 w
      else
        interactiveLoop client params fuel (ReadString stdin).2
          (client.InvokeModel (TrimSpace (ReadString stdin).1) params w).2 := rfl

theorem mainLoop_succ (client : Client) (env : Env) (fuel : Nat) (stdin : Stdin) (w : World) :
    mainLoop client env (fuel + 1) stdin w =
      if TrimSpace (ReadString stdin).1 = "1" then
        mainLoop client env fuel (ReadString (ReadString stdin).2).2
          (runZeroShotExamples client env w)
      else if TrimSpace (ReadString stdin).1 = "2" then
        mainLoop client env fuel (ReadString (ReadString stdin).2).2
          (runFewShotExamples client env w)
      else if TrimSpace (ReadString stdin).1 = "3" then
        mainLoop client env fuel (ReadString (ReadString stdin).2).2
          (runChainOfThoughtExamples client env w)
      else if TrimSpace (ReadString stdin).1 = "4" then
        mainLoop client env fuel (ReadString (ReadString stdin).2).2
          (runAllExamples client env w)
      else if TrimSpace (ReadString stdin).1 = "5" then
        match runInteractiveMode client env fuel (ReadString stdin).2 w with
        | (none, w) => (.running, w)
        | (some stdin, w) => mainLoop client env fuel (ReadString stdin).2 w
      else if TrimSpace (ReadString stdin).1 = "6" then (.returned, w)
      else mainLoop client env fuel (ReadString (ReadString stdin).2).2 w := rfl

/-! ### Ranges -/

theorem inRange_default (env : Env) : inRange (GetDefaultClaudeParams env) := by
  refine ⟨fin_7_10, ?_, ?_, fin_10_10, ?_, ?_, ?_, ?_⟩
  · show 0 ≤ (Float64.ofRatio 7 10).toRat
    rw [toRat_7_10]; norm_num
  · show (Float64.ofRatio 7 10).toRat ≤ 1
    rw [toRat_7_10]; norm_num
  · show 0 ≤ (Float64.ofRatio 10 10).toRat
    rw [toRat_10_10]; norm_num
  · show (Float64.ofRatio 10 10).toRat ≤ 1
    rw [toRat_10_10]; norm_num
  · show (0 : Int) < 500
    decide
  · show (0 : Int) < 500
    decide

theorem inRange_of (p : ModelParams) (t : Float64) (k m : Int) (env : Env)
    (hp : p = { ModelID := env "MODEL_ID", Temperature := t, TopP := Float64.ofRatio 10 10,
                TopK := k, MaxTokens := m })
    (ht : t.IsFinite = true) (h0 : 0 ≤ t.toRat) (h1 : t.toRat ≤ 1) (hk : 0 < k) (hm : 0 < m) :
    inRange p := by
  subst hp
  refine ⟨ht, h0, h1, fin_10_10, ?_, ?_, hk, hm⟩
  · show 0 ≤ (Float64.ofRatio 10 10).toRat
    rw [toRat_10_10]; norm_num
  · show (Float64.ofRatio 10 10).toRat ≤ 1
    rw [toRat_10_10]; norm_num

theorem inRange_zeroShot (env : Env) : inRange (zeroShotParams env) :=
  inRange_of _ _ 500 500 env rfl fin_3_10 (by rw [toRat_3_10]; norm_num)
    (by rw [toRat_3_10]; norm_num) (by decide) (by decide)

theorem inRange_fewShot (env : Env) : inRange (fewShotParams env) :=
  inRange_of _ _ 500 800 env rfl fin_5_10 (by rw [toRat_5_10]; norm_num)
    (by rw [toRat_5_10]; norm_num) (by decide) (by decide)

theorem inRange_creative (env : Env) :
    inRange { fewShotParams env with Temperature := Float64.ofRatio 8 10 } :=
  inRange_of _ _ 500 800 env rfl fin_8_10 (by rw [toRat_8_10]; norm_num)
    (by rw [toRat_8_10]; norm_num) (by decide) (by decide)

theorem inRange_chainOfThought (env : Env) : inRange (chainOfThoughtParams env) :=
  inRange_of _ _ 500 1000 env rfl fin_4_10 (by rw [toRat_4_10]; norm_num)
    (by rw [toRat_4_10]; norm_num) (by decide) (by decide)

theorem inRange_zeroShotCalls (env : Env) : ∀ x ∈ zeroShotCalls env, inRange x.2 := by
  intro x hx
  simp only [zeroShotCalls, List.mem_cons, List.mem_singleton, List.not_mem_nil, or_false] at hx
  rcases hx with h | h | h | h <;> subst h <;> exact inRange_zeroShot env

theorem inRange_fewShotCalls (env : Env) : ∀ x ∈ fewShotCalls env, inRange x.2 := by
  intro x hx
  simp only [fewShotCalls, List.mem_cons, List.mem_singleton, List.not_mem_nil, or_false] at hx
  rcases hx with h | h | h | h | h <;> subst h <;>
    first | exact inRange_fewShot env | exact inRange_creative env

theorem inRange_chainOfThoughtCalls (env : Env) :
    ∀ x ∈ chainOfThoughtCalls env, inRange x.2 := by
  intro x hx
  simp only [chainOfThoughtCalls, List.mem_cons, List.mem_singleton, List.not_mem_nil,
    or_false] at hx
  rcases hx with h | h | h | h | h <;> subst h <;> exact inRange_chainOfThought env

theorem worldAfter_inRange (w : World) (calls : List (String × ModelParams))
    (hw : ∀ x ∈ w.invoked, inRange x.2) (hc : ∀ x ∈ calls, inRange x.2) :
    ∀ x ∈ (worldAfter w calls).invoked, inRange x.2 := by
  intro x hx
  simp only [worldAfter, List.mem_append] at hx
  rcases hx with h | h
  · exact hw x h
  · exact hc x h

theorem interactiveLoop_inRange (client : Client) (params : ModelParams) (hp : inRange params) :
    ∀ (fuel : Nat) (stdin : Stdin) (w : World), (∀ x ∈ w.invoked, inRange x.2) →
      ∀ x ∈ (interactiveLoop client params fuel stdin w).2.invoked, inRange x.2 := by
  intro fuel
  induction fuel with
  | zero => intro stdin w hw; exact hw
  | succ fuel ih =>
    intro stdin w hw
    rw [interactiveLoop_succ]
    split
    · exact hw
    · split
      · exact ih _ _ hw
      · apply ih
        intro x hx
        rw [invokeModel_world] at hx
        simp only [List.mem_append, List.mem_singleton] at hx
        rcases hx with h | h
        · exact hw x h
        · subst h; exact hp

theorem mainLoop_inRange (client : Client) (env : Env) :
    ∀ (fuel : Nat) (stdin : Stdin) (w : World), (∀ x ∈ w.invoked, inRange x.2) →
      ∀ x ∈ (mainLoop client env fuel stdin w).2.invoked, inRange x.2 := by
  intro fuel
  induction fuel with
  | zero => intro stdin w hw; exact hw
  | succ fuel ih =>
    intro stdin w hw
    rw [mainLoop_succ]
    split
    · apply ih
      rw [runZeroShotExamples_eq]
      exact worldAfter_inRange _ _ hw (inRange_zeroShotCalls env)
    split
    · apply ih
      rw [runFewShotExamples_eq]
      exact worldAfter_inRange _ _ hw (inRange_fewShotCalls env)
    split
    · apply ih
      rw [runChainOfThoughtExamples_eq]
      exact worldAfter_inRange _ _ hw (inRange_chainOfThoughtCalls env)
    split
    · apply ih
      rw [runAllExamples_eq]
      apply worldAfter_inRange _ _ hw
      intro x hx
      simp only [List.mem_append] at hx
      rcases hx with (h | h) | h
      · exact inRange_zeroShotCalls env x h
      · exact inRange_fewShotCalls env x h
      · exact inRange_chainOfThoughtCalls env x h
    split
    · have hi := interactiveLoop_inRange client (GetDefaultClaudeParams env)
        (inRange_default env) fuel (ReadString stdin).2 w hw
      rcases hr : runInteractiveMode client env fuel (ReadString stdin).2 w with ⟨_ | rest, w1⟩
      · have : (interactiveLoop client (GetDefaultClaudeParams env) fuel
            (ReadString stdin).2 w).2 = w1 := congrArg Prod.snd hr
        rw [this] at hi
        exact hi
      · have : (interactiveLoop client (GetDefaultClaudeParams env) fuel
            (ReadString stdin).2 w).2 = w1 := congrArg Prod.snd hr
        rw [this] at hi
        exact ih _ _ hi
    split
    · exact hw
    · exact ih _ _ hw

/-! ## The claims -/

/-- C1: for every prompt and every `ModelParams` whose `Temperature` and `TopP` are finite,
`InvokeModel` sends one request whose body is the marshalled map: a JSON object with
exactly the five keys `prompt`, `temperature`, `top_p`, `top_k` and
`max_tokens_to_sample`, holding the parameters' `Temperature`, `TopP`, `TopK` and
`MaxTokens`; the body does not depend on `ModelID`, which is the request's model
identifier, and the content type is `application/json`. -/
theorem invokeModel_request_shape (c : Client) (prompt : String) (p : ModelParams) (w : World)
    (hT : p.Temperature.IsFinite = true) (hP : p.TopP.IsFinite = true) :
    ∃ r : InvokeModelInput,
      (c.InvokeModel prompt p w).2.requests = w.requests ++ [r] ∧
      Marshal (requestBody prompt p) = .ok r.Body ∧
      r.Body.isObject = true ∧
      r.Body.keys.Perm ["prompt", "temperature", "top_p", "top_k", "max_tokens_to_sample"] ∧
      r.Body.get? "temperature" = some (.number (.float64 p.Temperature)) ∧
      r.Body.get? "top_p" = some (.number (.float64 p.TopP)) ∧
      r.Body.get? "top_k" = some (.number (.int p.TopK)) ∧
      r.Body.get? "max_tokens_to_sample" = some (.number (.int p.MaxTokens)) ∧
      r.Body.get? "model_id" = none ∧
      (∀ id : String, Marshal (requestBody prompt { p with ModelID := id }) = .ok r.Body) ∧
      r.ModelId = p.ModelID ∧
      r.ContentType = "application/json" := by
  have hf : finiteParams p = true := by simp [finiteParams, hT, hP]
  refine ⟨requestOf prompt p, ?_, marshal_requestBody_of_finite prompt p hT hP, rfl, ?_,
    rfl, rfl, rfl, rfl, rfl, ?_, rfl, rfl⟩
  · rw [invokeModel_world, if_pos hf]
  · show List.Perm ["max_tokens_to_sample", "prompt", "temperature", "top_k", "top_p"]
      ["prompt", "temperature", "top_p", "top_k", "max_tokens_to_sample"]
    decide
  · intro id
    exact marshal_requestBody_of_finite prompt { p with ModelID := id } hT hP

/-- C1 at the default parameters and the prompt `hi`. -/
theorem invokeModel_request_shape_witness :
    sampleParams.Temperature.IsFinite = true ∧ sampleParams.TopP.IsFinite = true ∧
    ∃ r : InvokeModelInput,
      ((failing (.sdk "down")).InvokeModel "hi" sampleParams World.start).2.requests
        = World.start.requests ++ [r] ∧
      Marshal (requestBody "hi" sampleParams) = .ok r.Body ∧
      r.Body.isObject = true ∧
      r.Body.keys.Perm ["prompt", "temperature", "top_p", "top_k", "max_tokens_to_sample"] ∧
      r.Body.get? "temperature" = some (.number (.float64 sampleParams.Temperature)) ∧
      r.Body.get? "top_p" = some (.number (.float64 sampleParams.TopP)) ∧
      r.Body.get? "top_k" = some (.number (.int sampleParams.TopK)) ∧
      r.Body.get? "max_tokens_to_sample" = some (.number (.int sampleParams.MaxTokens)) ∧
      r.Body.get? "model_id" = none ∧
      (∀ id : String,
        Marshal (requestBody "hi" { sampleParams with ModelID := id }) = .ok r.Body) ∧
      r.ModelId = sampleParams.ModelID ∧
      r.ContentType = "application/json" :=
  ⟨by decide, by decide,
    invokeModel_request_shape (failing (.sdk "down")) "hi" sampleParams World.start
      (by decide) (by decide)⟩


/-! ### C2 -/

theorem invokeModel_fst_of_finite (c : Client) (prompt : String) (p : ModelParams) (w : World)
    (h : finiteParams p = true) :
    (c.InvokeModel prompt p w).1 =
      match c.client w.requests (requestOf prompt p) with
      | .error err => (none, some (Errorf "failed to invoke model: " err))
      | .ok body =>
        match Unmarshal body with
        | (_, some err) => (none, some (Errorf "failed to unmarshal response: " err))
        | (modelResp, none) => (some modelResp, none) := by
  rw [invokeModel_of_finite c prompt p w h]

theorem wellTyped_savedError (members : List (String × Json)) (h : wellTyped members = true) :
    (Unmarshal (.document (.object members))).2 = none :=
  (unmarshal_error_iff (.object members)).2 h

/-- C2 fails as stated: the call succeeds with the JSON object `{"completion": 5}` as its
body, and `InvokeModel` returns no response and an error. -/
theorem invokeModel_object_body_counterexample :
    (Json.object [("completion", .number (.int 5))]).isObject = true ∧
    ((answering (.document (.object [("completion", .number (.int 5))]))).InvokeModel "hi"
        sampleParams World.start).1
      = (none, some (Errorf "failed to unmarshal response: "
          (.UnmarshalTypeError "number" "string" "ModelResponse" "completion"))) := by
  constructor
  · rfl
  · decide

/-- C2, amended: `InvokeModel` returns a response or an error, never both and never
neither. When the call succeeds with a JSON object in which every member named after a
field of `ModelResponse` (up to case) holds a string or `null`, the result is the
response whose fields are the strings of the last such members (the empty string for a
field no string member names) and a nil error. In every failing case (the body does not
marshal, the call fails, the response does not decode) the response is nil and the
error is not. -/
theorem invokeModel_result (c : Client) (prompt : String) (p : ModelParams) (w : World) :
    (((c.InvokeModel prompt p w).1.1 = none ∧ (c.InvokeModel prompt p w).1.2 ≠ none) ∨
      ((c.InvokeModel prompt p w).1.1 ≠ none ∧ (c.InvokeModel prompt p w).1.2 = none)) ∧
    (∀ members : List (String × Json),
      finiteParams p = true →
      c.client w.requests (requestOf prompt p) = .ok (.document (.object members)) →
      wellTyped members = true →
      (c.InvokeModel prompt p w).1 = (some (responseOf members), none)) ∧
    (∀ (f : Field) (members : List (String × Json)),
      (∀ kv ∈ members, names kv.1 f = false) → lastString f members = "") ∧
    (finiteParams p = false →
      (c.InvokeModel prompt p w).1.1 = none ∧ (c.InvokeModel prompt p w).1.2 ≠ none) ∧
    (∀ e : GoError, finiteParams p = true →
      c.client w.requests (requestOf prompt p) = .error e →
      (c.InvokeModel prompt p w).1.1 = none ∧ (c.InvokeModel prompt p w).1.2 ≠ none) ∧
    (∀ (body : ResponseBody) (e : GoError), finiteParams p = true →
      c.client w.requests (requestOf prompt p) = .ok body →
      (Unmarshal body).2 = some e →
      (c.InvokeModel prompt p w).1.1 = none ∧ (c.InvokeModel prompt p w).1.2 ≠ none) := by
  refine ⟨?_, ?_, ?_, ?_, ?_, ?_⟩
  · cases h : finiteParams p with
    | false =>
      obtain ⟨err, _, he⟩ := invokeModel_of_not_finite c prompt p w h
      rw [he]; simp
    | true =>
      rw [invokeModel_fst_of_finite c prompt p w h]
      cases c.client w.requests (requestOf prompt p) with
      | error err => simp
      | ok body =>
        rcases hu : Unmarshal body with ⟨m, _ | e⟩ <;> simp [hu]
  · intro members hf hc hw
    rw [invokeModel_fst_of_finite c prompt p w hf, hc]
    have h2 := wellTyped_savedError members hw
    rw [unmarshal_object] at h2
    simp only at h2
    simp only [unmarshal_object, h2]
  · intro f members h
    have : lastString? f members = none := by
      induction members with
      | nil => rfl
      | cons kv rest ih =>
        obtain ⟨key, item⟩ := kv
        have h1 : names key f = false := h (key, item) (List.mem_cons_self _ _)
        have h2 := ih (fun kv hkv => h kv (List.mem_cons_of_mem _ hkv))
        simp [lastString?, h1, h2]
    simp [lastString, this]
  · intro h
    obtain ⟨err, _, he⟩ := invokeModel_of_not_finite c prompt p w h
    rw [he]; simp
  · intro e hf hc
    rw [invokeModel_fst_of_finite c prompt p w hf, hc]; simp
  · intro body e hf hc hu
    rw [invokeModel_fst_of_finite c prompt p w hf, hc]
    rcases hu' : Unmarshal body with ⟨m, _ | e'⟩
    · rw [hu'] at hu; cases hu
    · simp [hu']

/-- C2, amended, at a response with a completion and a stop reason. -/
theorem invokeModel_result_witness :
    ((answering (.document (.object [("completion", .string " Hello!"),
        ("stop_reason", .string "stop_sequence"), ("stop", .string "\n\nHuman:")]))).InvokeModel
        "hi" sampleParams World.start).1
      = (some { Type_ := "", Completion := " Hello!", StopReason := "stop_sequence",
                Stop := "\n\nHuman:" }, none) :=
  ((invokeModel_result
      (answering (.document (.object [("completion", .string " Hello!"),
        ("stop_reason", .string "stop_sequence"), ("stop", .string "\n\nHuman:")])))
      "hi" sampleParams World.start).2.1 _ (by decide) rfl (by decide)).trans (by decide)

/-! ### C3 -/

/-- C3 fails as stated: with the well-formed body `[]` the call succeeds and `InvokeModel`
returns an error; with a NaN temperature `InvokeModel` returns an error and no call
is made at all. -/
theorem invokeModel_error_counterexample :
    ((answering (.document (.array []))).InvokeModel "hi" sampleParams World.start).1.2
      = some (Errorf "failed to unmarshal response: "
          (.UnmarshalTypeError "array" "bedrock.ModelResponse" "" "")) ∧
    ((answering (.document (.object []))).InvokeModel "hi"
        { sampleParams with Temperature := nan } World.start).1.2
      = some (Errorf "failed to marshal request body: " (.UnsupportedValueError "NaN")) ∧
    ((answering (.document (.object []))).InvokeModel "hi"
        { sampleParams with Temperature := nan } World.start).2.requests.length = 0 := by
  refine ⟨by decide, by decide, by decide⟩

/-- C3, amended: `InvokeModel` returns an error if and only if the request body does not
marshal (`Temperature` or `TopP` is a NaN or an infinity), or the remote call fails, or
the response body is not well-formed JSON, or it is well-formed JSON that does not
decode into a `ModelResponse` (it is neither `null` nor an object whose members named
after a field hold a string or `null`). -/
theorem invokeModel_error_iff (c : Client) (prompt : String) (p : ModelParams) (w : World) :
    (c.InvokeModel prompt p w).1.2 ≠ none ↔
      (finiteParams p = false ∨
        (finiteParams p = true ∧
          ((∃ e, c.client w.requests (requestOf prompt p) = .error e) ∨
           (∃ msg offset,
              c.client w.requests (requestOf prompt p) = .ok (.invalid msg offset)) ∨
           (∃ doc, c.client w.requests (requestOf prompt p) = .ok (.document doc) ∧
              decodes doc = false)))) := by
  cases h : finiteParams p with
  | false =>
    obtain ⟨err, _, he⟩ := invokeModel_of_not_finite c prompt p w h
    rw [he]; simp
  | true =>
    rw [invokeModel_fst_of_finite c prompt p w h]
    cases hc : c.client w.requests (requestOf prompt p) with
    | error err => simp
    | ok body =>
      cases body with
      | invalid msg offset => simp [Unmarshal]
      | document doc =>
        have hiff := unmarshal_error_iff doc
        rcases hu : Unmarshal (.document doc) with ⟨m, _ | e⟩
        · rw [hu] at hiff
          have hd : decodes doc = true := hiff.1 rfl
          simp [hd, hu]
        · rw [hu] at hiff
          have hd : decodes doc = false := by
            cases hd : decodes doc with
            | false => rfl
            | true => exact absurd (hiff.2 hd) (by simp)
          simp [hd, hu]

/-! ### C4 -/

theorem errorf_unwrap (pre : String) (e : GoError) :
    (Errorf pre e).Unwrap = some e ∧ (Errorf pre e).Error = pre ++ e.Error :=
  ⟨rfl, rfl⟩

/-- C4 fails as stated: when the call fails with the error `boom`, the error `InvokeModel`
returns is another error, with another message, and so is the error of an example. -/
theorem invokeModel_error_unchanged_counterexample :
    ((failing (.sdk "boom")).InvokeModel "hi" sampleParams World.start).1.2
      = some (.wrapError "failed to invoke model: boom" (.sdk "boom")) ∧
    GoError.wrapError "failed to invoke model: boom" (.sdk "boom") ≠ .sdk "boom" ∧
    (GoError.wrapError "failed to invoke model: boom" (.sdk "boom")).Error
      ≠ (GoError.sdk "boom").Error ∧
    ((NewZeroShotPrompt (failing (.sdk "boom")) (fun _ => "m")).ExecuteTextClassification
        World.start).1
      = some (.wrapError "failed to execute text classification: failed to invoke model: boom"
          (.wrapError "failed to invoke model: boom" (.sdk "boom"))) := by
  refine ⟨by decide, by decide, by decide, by decide⟩

/-- C4, amended: when the remote call or the decoding of the response fails with the
error `e`, `InvokeModel` returns the error that wraps `e` (unwrapping it gives `e`) and
whose message is `failed to invoke model: `, respectively `failed to unmarshal
response: `, followed by the message of `e`; every example method returns the error of
`InvokeModel` wrapped once more, with its own `failed to execute ...: ` in front. The
wrapping is the same for every error. -/
theorem errors_are_wrapped (c : Client) (prompt : String) (p : ModelParams) (w : World)
    (hf : finiteParams p = true) :
    (∀ e : GoError, c.client w.requests (requestOf prompt p) = .error e →
      (c.InvokeModel prompt p w).1 = (none, some (Errorf "failed to invoke model: " e))) ∧
    (∀ (body : ResponseBody) (e : GoError),
      c.client w.requests (requestOf prompt p) = .ok body → (Unmarshal body).2 = some e →
      (c.InvokeModel prompt p w).1
        = (none, some (Errorf "failed to unmarshal response: " e))) ∧
    (∀ (pre : String) (e : GoError),
      (Errorf pre e).Unwrap = some e ∧ (Errorf pre e).Error = pre ++ e.Error) ∧
    (∀ (z : ZeroShotPrompt) (w : World),
      (z.ExecuteTextClassification w).1 =
        (z.client.InvokeModel ZeroShotPrompt.textClassificationPrompt z.params w).1.2.map
          (Errorf "failed to execute text classification: ")) ∧
    (∀ (z : ZeroShotPrompt) (w : World),
      (z.ExecuteQuestionAnswering w).1 =
        (z.client.InvokeModel ZeroShotPrompt.questionAnsweringPrompt z.params w).1.2.map
          (Errorf "failed to execute question answering: ")) ∧
    (∀ (z : ZeroShotPrompt) (w : World),
      (z.ExecuteLanguageTranslation w).1 =
        (z.client.InvokeModel ZeroShotPrompt.languageTranslationPrompt z.params w).1.2.map
          (Errorf "failed to execute language translation: ")) ∧
    (∀ (z : ZeroShotPrompt) (w : World),
      (z.ExecuteCodeGeneration w).1 =
        (z.client.InvokeModel ZeroShotPrompt.codeGenerationPrompt z.params w).1.2.map
          (Errorf "failed to execute code generation: ")) ∧
    (∀ (z : FewShotPrompt) (w : World),
      (z.ExecuteSentimentAnalysis w).1 =
        (z.client.InvokeModel FewShotPrompt.sentimentAnalysisPrompt z.params w).1.2.map
          (Errorf "failed to execute sentiment analysis: ")) ∧
    (∀ (z : FewShotPrompt) (w : World),
      (z.ExecuteEntityExtraction w).1 =
        (z.client.InvokeModel FewShotPrompt.entityExtractionPrompt z.params w).1.2.map
          (Errorf "failed to execute entity extraction: ")) ∧
    (∀ (z : FewShotPrompt) (w : World),
      (z.ExecuteCodeCompletion w).1 =
        (z.client.InvokeModel FewShotPrompt.codeCompletionPrompt z.params w).1.2.map
          (Errorf "failed to execute code completion: ")) ∧
    (∀ (z : FewShotPrompt) (w : World),
      (z.ExecuteEmailClassification w).1 =
        (z.client.InvokeModel FewShotPrompt.emailClassificationPrompt z.params w).1.2.map
          (Errorf "failed to execute email classification: ")) ∧
    (∀ (z : FewShotPrompt) (w : World),
      (z.ExecuteCreativeWriting w).1 =
        (z.client.InvokeModel FewShotPrompt.creativeWritingPrompt ({ z.params with Temperature := Float64.ofRatio 8 10 }) w).1.2.map
          (Errorf "failed to execute creative writing: ")) ∧
    (∀ (z : ChainOfThoughtPrompt) (w : World),
      (z.ExecuteMathProblemSolving w).1 =
        (z.client.InvokeModel ChainOfThoughtPrompt.mathProblemSolvingPrompt z.params w).1.2.map
          (Errorf "failed to execute math problem solving: ")) ∧
    (∀ (z : ChainOfThoughtPrompt) (w : World),
      (z.ExecuteLogicalReasoning w).1 =
        (z.client.InvokeModel ChainOfThoughtPrompt.logicalReasoningPrompt z.params w).1.2.map
          (Errorf "failed to execute logical reasoning: ")) ∧
    (∀ (z : ChainOfThoughtPrompt) (w : World),
      (z.ExecuteProblemDecomposition w).1 =
        (z.client.InvokeModel ChainOfThoughtPrompt.problemDecompositionPrompt z.params w).1.2.map
          (Errorf "failed to execute problem decomposition: ")) ∧
    (∀ (z : ChainOfThoughtPrompt) (w : World),
      (z.ExecuteCodeDebugging w).1 =
        (z.client.InvokeModel ChainOfThoughtPrompt.codeDebuggingPrompt z.params w).1.2.map
          (Errorf "failed to execute code debugging: ")) ∧
    (∀ (z : ChainOfThoughtPrompt) (w : World),
      (z.ExecuteDecisionMaking w).1 =
        (z.client.InvokeModel ChainOfThoughtPrompt.decisionMakingPrompt z.params w).1.2.map
          (Errorf "failed to execute decision making: ")) := by
  refine ⟨?_, ?_, errorf_unwrap,
    fun z w => by rw [ZeroShotPrompt_ExecuteTextClassification_eq],
    fun z w => by rw [ZeroShotPrompt_ExecuteQuestionAnswering_eq],
    fun z w => by rw [ZeroShotPrompt_ExecuteLanguageTranslation_eq],
    fun z w => by rw [ZeroShotPrompt_ExecuteCodeGeneration_eq],
    fun z w => by rw [FewShotPrompt_ExecuteSentimentAnalysis_eq],
    fun z w => by rw [FewShotPrompt_ExecuteEntityExtraction_eq],
    fun z w => by rw [FewShotPrompt_ExecuteCodeCompletion_eq],
    fun z w => by rw [FewShotPrompt_ExecuteEmailClassification_eq],
    fun z w => by rw [FewShotPrompt_ExecuteCreativeWriting_eq],
    fun z w => by rw [ChainOfThoughtPrompt_ExecuteMathProblemSolving_eq],
    fun z w => by rw [ChainOfThoughtPrompt_ExecuteLogicalReasoning_eq],
    fun z w => by rw [ChainOfThoughtPrompt_ExecuteProblemDecomposition_eq],
    fun z w => by rw [ChainOfThoughtPrompt_ExecuteCodeDebugging_eq],
    fun z w => by rw [ChainOfThoughtPrompt_ExecuteDecisionMaking_eq]⟩
  · intro e hc
    rw [invokeModel_fst_of_finite c prompt p w hf, hc]
  · intro body e hc hu
    rw [invokeModel_fst_of_finite c prompt p w hf, hc]
    rcases hu' : Unmarshal body with ⟨m, _ | e'⟩
    · rw [hu'] at hu; cases hu
    · rw [hu'] at hu; cases hu; simp only [hu']

/-- C4, amended, at a failing endpoint. -/
theorem errors_are_wrapped_witness :
    finiteParams sampleParams = true ∧
    ((failing (.sdk "boom")).InvokeModel "hi" sampleParams World.start).1
      = (none, some (Errorf "failed to invoke model: " (.sdk "boom"))) :=
  ⟨sampleParams_finite,
    (errors_are_wrapped (failing (.sdk "boom")) "hi" sampleParams World.start
      sampleParams_finite).1 (.sdk "boom") rfl⟩

/-! ### C5 -/

theorem handleFinalize_sent (r : Retryer) (endpoint : Endpoint) (input : InvokeModelInput) :
    ∀ (remaining : Nat) (sent : List InvokeModelInput),
      ∃ n, 1 ≤ n ∧ n ≤ remaining + 1 ∧
        (r.HandleFinalize endpoint input remaining sent).2
          = sent ++ List.replicate n input := by
  intro remaining
  induction remaining with
  | zero =>
    intro sent
    refine ⟨1, le_refl _, le_refl _, ?_⟩
    simp only [Retryer.HandleFinalize]
    cases endpoint sent input with
    | ok body => rfl
    | error err => by_cases h : r.IsErrorRetryable err = false <;> simp [h]
  | succ remaining ih =>
    intro sent
    simp only [Retryer.HandleFinalize]
    cases endpoint sent input with
    | ok body => exact ⟨1, le_refl _, by omega, rfl⟩
    | error err =>
      by_cases h : r.IsErrorRetryable err = false
      · exact ⟨1, le_refl _, by omega, by simp [h]⟩
      · cases ht : r.GetRetryToken (sent ++ [input]) err with
        | some tokenErr => exact ⟨1, le_refl _, by omega, by simp [h, ht]⟩
        | none =>
          obtain ⟨n, h1, h2, hn⟩ := ih (sent ++ [input])
          refine ⟨n + 1, by omega, by omega, ?_⟩
          simp [h, ht, hn, List.replicate_succ]

theorem handleFinalize_once (r : Retryer) (endpoint : Endpoint) (input : InvokeModelInput)
    (remaining : Nat) (sent : List InvokeModelInput)
    (h : ∀ e, endpoint sent input = .error e → r.IsErrorRetryable e = false) :
    (r.HandleFinalize endpoint input remaining sent).2 = sent ++ [input] := by
  cases remaining with
  | zero =>
    simp only [Retryer.HandleFinalize]
    cases he : endpoint sent input with
    | ok body => rfl
    | error err => simp [h err he]
  | succ remaining =>
    simp only [Retryer.HandleFinalize]
    cases he : endpoint sent input with
    | ok body => rfl
    | error err => simp [h err he]

theorem handleFinalize_again (r : Retryer) (endpoint : Endpoint) (input : InvokeModelInput)
    (remaining : Nat) (sent : List InvokeModelInput) (e : GoError)
    (he : endpoint sent input = .error e) (hre : r.IsErrorRetryable e = true)
    (ht : r.GetRetryToken (sent ++ [input]) e = none) :
    ∃ n, 2 ≤ n ∧
      (r.HandleFinalize endpoint input (remaining + 1) sent).2
        = sent ++ List.replicate n input := by
  obtain ⟨n, h1, _, hn⟩ := handleFinalize_sent r endpoint input remaining (sent ++ [input])
  refine ⟨n + 1, by omega, ?_⟩
  simp only [Retryer.HandleFinalize, he, hre, Bool.true_eq_false, if_false, ht, hn,
    List.append_assoc, List.singleton_append, List.replicate_succ]

theorem config_invokeModel_sent (cfg : Config) (input : InvokeModelInput)
    (sent : List InvokeModelInput) (hb : cfg.before sent input = none) :
    (cfg.InvokeModel input sent).2
      = (cfg.retryer.HandleFinalize cfg.endpoint input (cfg.retryer.MaxAttempts - 1) sent).2 := by
  unfold Config.InvokeModel
  rw [hb]
  rcases cfg.retryer.HandleFinalize cfg.endpoint input (cfg.retryer.MaxAttempts - 1) sent
    with ⟨_ | _, s⟩ <;> rfl

theorem config_invokeModel_before (cfg : Config) (input : InvokeModelInput)
    (sent : List InvokeModelInput) (err : GoError) (hb : cfg.before sent input = some err) :
    (cfg.InvokeModel input sent).2 = sent := by
  unfold Config.InvokeModel
  rw [hb]

theorem sent_snoc (cfg : Config) (calls : List InvokeModelInput) (input : InvokeModelInput) :
    cfg.sent (calls ++ [input]) = (cfg.InvokeModel input (cfg.sent calls)).2 := by
  simp [Config.sent, List.foldl_append]

theorem invokeModel_sent (prompt : String) (p : ModelParams) (w : World) (cfg : Config)
    (hr : 0 < cfg.retryer.MaxAttempts) :
    ∃ n, n ≤ cfg.retryer.MaxAttempts ∧ (finiteParams p = false → n = 0) ∧
      (∀ err, cfg.before (cfg.sent w.requests) (requestOf prompt p) = some err → n = 0) ∧
      (finiteParams p = true →
        cfg.before (cfg.sent w.requests) (requestOf prompt p) = none → 1 ≤ n) ∧
      cfg.sent ((sdkClient cfg).InvokeModel prompt p w).2.requests
        = cfg.sent w.requests ++ List.replicate n (requestOf prompt p) := by
  rw [invokeModel_world]
  cases hf : finiteParams p with
  | false =>
    refine ⟨0, Nat.zero_le _, fun _ => rfl, fun _ _ => rfl, fun h => Bool.noConfusion h, ?_⟩
    simp
  | true =>
    cases hb : cfg.before (cfg.sent w.requests) (requestOf prompt p) with
    | some err =>
      refine ⟨0, Nat.zero_le _, fun h => Bool.noConfusion h, fun _ _ => rfl,
        fun _ h => Option.noConfusion h, ?_⟩
      simp only [if_true, sent_snoc, config_invokeModel_before cfg _ _ err hb,
        List.replicate_zero, List.append_nil]
    | none =>
      obtain ⟨n, h1, h2, hn⟩ := handleFinalize_sent cfg.retryer cfg.endpoint
        (requestOf prompt p) (cfg.retryer.MaxAttempts - 1) (cfg.sent w.requests)
      refine ⟨n, by omega, fun h => Bool.noConfusion h, fun _ h => Option.noConfusion h,
        fun _ _ => h1, ?_⟩
      simp only [if_true, sent_snoc, config_invokeModel_sent cfg _ _ hb, hn]

theorem invokeModel_sent_once (prompt : String) (p : ModelParams) (w : World) (cfg : Config)
    (hf : finiteParams p = true)
    (hb : cfg.before (cfg.sent w.requests) (requestOf prompt p) = none)
    (h : ∀ e, cfg.endpoint (cfg.sent w.requests) (requestOf prompt p) = .error e →
      cfg.retryer.IsErrorRetryable e = false) :
    cfg.sent ((sdkClient cfg).InvokeModel prompt p w).2.requests
      = cfg.sent w.requests ++ [requestOf prompt p] := by
  rw [invokeModel_world, if_pos hf, sent_snoc, config_invokeModel_sent cfg _ _ hb,
    handleFinalize_once cfg.retryer cfg.endpoint _ _ _ h]

theorem invokeModel_sent_again (prompt : String) (p : ModelParams) (w : World) (cfg : Config)
    (e : GoError) (hf : finiteParams p = true)
    (hb : cfg.before (cfg.sent w.requests) (requestOf prompt p) = none)
    (hr : 1 < cfg.retryer.MaxAttempts)
    (he : cfg.endpoint (cfg.sent w.requests) (requestOf prompt p) = .error e)
    (hre : cfg.retryer.IsErrorRetryable e = true)
    (ht : cfg.retryer.GetRetryToken (cfg.sent w.requests ++ [requestOf prompt p]) e = none) :
    ∃ n, 2 ≤ n ∧
      cfg.sent ((sdkClient cfg).InvokeModel prompt p w).2.requests
        = cfg.sent w.requests ++ List.replicate n (requestOf prompt p) := by
  obtain ⟨m, hm⟩ : ∃ m, cfg.retryer.MaxAttempts - 1 = m + 1 :=
    ⟨cfg.retryer.MaxAttempts - 2, by omega⟩
  rw [invokeModel_world, if_pos hf, sent_snoc, config_invokeModel_sent cfg _ _ hb, hm]
  exact handleFinalize_again cfg.retryer cfg.endpoint _ m _ e he hre ht

/-- C5 fails as stated: the client `NewClient` builds keeps the retryer of the SDK, and
against a service that answers every attempt with the status 500 one call of
`InvokeModel` addresses the service three times, the failed first attempt being followed
by a second and a third, before it returns the error; against a service that answers
only the third attempt, one call of `InvokeModel` makes three attempts and returns the
response. -/
theorem invokeModel_retry_counterexample :
    (standardConfig unavailable).sent
        ((sdkClient (standardConfig unavailable)).InvokeModel "hi" sampleParams
          World.start).2.requests
      = [requestOf "hi" sampleParams, requestOf "hi" sampleParams,
          requestOf "hi" sampleParams] ∧
    ((sdkClient (standardConfig unavailable)).InvokeModel "hi" sampleParams World.start).1
      = (none, some (Errorf "failed to invoke model: "
          (OperationError (MaxAttemptsError 3 status500)))) ∧
    ((standardConfig (recovering (.document (.object [("completion", .string " Hello!")])))).sent
        ((sdkClient (standardConfig
            (recovering (.document (.object [("completion", .string " Hello!")]))))).InvokeModel
          "hi" sampleParams World.start).2.requests).length = 3 ∧
    ((sdkClient (standardConfig
        (recovering (.document (.object [("completion", .string " Hello!")]))))).InvokeModel
      "hi" sampleParams World.start).1
      = (some { Type_ := "", Completion := " Hello!", StopReason := "", Stop := "" }, none) := by
  refine ⟨rfl, by decide, by decide, by decide⟩

/-- C5, amended: the wrapper itself does not retry. One call of `InvokeModel` is recorded
once and makes exactly one call of the SDK operation when the body marshals and none when
it does not, with the same input whatever the client answers; when that operation call
fails, `InvokeModel` returns its error and does not call again. The SDK client retries
inside the operation call: for a configuration whose retryer allows `MaxAttempts`
attempts, one call of `InvokeModel` makes at most `MaxAttempts` attempts, all with the
same request; none when the body does not marshal or a step before the retry loop fails,
and at least one otherwise; exactly one when the first attempt succeeds or fails with an
error that is not retryable; at least two when the first attempt fails with a retryable
error, more than one attempt is allowed and the retry quota gives a token. Every example
method makes exactly one call of `InvokeModel`, whether it fails or not. -/
theorem invokeModel_attempts (c : Client) (prompt : String) (p : ModelParams) (w : World) :
    (c.InvokeModel prompt p w).2.invoked = w.invoked ++ [(prompt, p)] ∧
    (match Marshal (requestBody prompt p) with
      | .ok body =>
        (c.InvokeModel prompt p w).2.requests
          = w.requests ++ [{ ModelId := p.ModelID, Body := body, ContentType := "application/json" }]
      | .error _ => (c.InvokeModel prompt p w).2.requests = w.requests) ∧
    (c.InvokeModel prompt p w).2.requests.length ≤ w.requests.length + 1 ∧
    (∀ c' : Client, (c'.InvokeModel prompt p w).2 = (c.InvokeModel prompt p w).2) ∧
    (∀ e, finiteParams p = true → c.client w.requests (requestOf prompt p) = .error e →
      (c.InvokeModel prompt p w).1 = (none, some (Errorf "failed to invoke model: " e))) ∧
    (∀ (cfg : Config), 0 < cfg.retryer.MaxAttempts →
      ∃ n, n ≤ cfg.retryer.MaxAttempts ∧ (finiteParams p = false → n = 0) ∧
        (∀ err, cfg.before (cfg.sent w.requests) (requestOf prompt p) = some err → n = 0) ∧
        (finiteParams p = true →
          cfg.before (cfg.sent w.requests) (requestOf prompt p) = none → 1 ≤ n) ∧
        cfg.sent ((sdkClient cfg).InvokeModel prompt p w).2.requests
          = cfg.sent w.requests ++ List.replicate n (requestOf prompt p)) ∧
    (∀ (cfg : Config), finiteParams p = true →
      cfg.before (cfg.sent w.requests) (requestOf prompt p) = none →
      (∀ e, cfg.endpoint (cfg.sent w.requests) (requestOf prompt p) = .error e →
        cfg.retryer.IsErrorRetryable e = false) →
      cfg.sent ((sdkClient cfg).InvokeModel prompt p w).2.requests
        = cfg.sent w.requests ++ [requestOf prompt p]) ∧
    (∀ (cfg : Config) (e : GoError), finiteParams p = true →
      cfg.before (cfg.sent w.requests) (requestOf prompt p) = none →
      1 < cfg.retryer.MaxAttempts →
      cfg.endpoint (cfg.sent w.requests) (requestOf prompt p) = .error e →
      cfg.retryer.IsErrorRetryable e = true →
      cfg.retryer.GetRetryToken (cfg.sent w.requests ++ [requestOf prompt p]) e = none →
      ∃ n, 2 ≤ n ∧
        cfg.sent ((sdkClient cfg).InvokeModel prompt p w).2.requests
          = cfg.sent w.requests ++ List.replicate n (requestOf prompt p)) ∧
    (∀ (z : ZeroShotPrompt) (w : World),
      (z.ExecuteTextClassification w).2.2 = (z.client.InvokeModel ZeroShotPrompt.textClassificationPrompt z.params w).2 ∧
      (z.ExecuteTextClassification w).2.2.invoked = w.invoked ++ [(ZeroShotPrompt.textClassificationPrompt, z.params)]) ∧
    (∀ (z : ZeroShotPrompt) (w : World),
      (z.ExecuteQuestionAnswering w).2.2 = (z.client.InvokeModel ZeroShotPrompt.questionAnsweringPrompt z.params w).2 ∧
      (z.ExecuteQuestionAnswering w).2.2.invoked = w.invoked ++ [(ZeroShotPrompt.questionAnsweringPrompt, z.params)]) ∧
    (∀ (z : ZeroShotPrompt) (w : World),
      (z.ExecuteLanguageTranslation w).2.2 = (z.client.InvokeModel ZeroShotPrompt.languageTranslationPrompt z.params w).2 ∧
      (z.ExecuteLanguageTranslation w).2.2.invoked = w.invoked ++ [(ZeroShotPrompt.languageTranslationPrompt, z.params)]) ∧
    (∀ (z : ZeroShotPrompt) (w : World),
      (z.ExecuteCodeGeneration w).2.2 = (z.client.InvokeModel ZeroShotPrompt.codeGenerationPrompt z.params w).2 ∧
      (z.ExecuteCodeGeneration w).2.2.invoked = w.invoked ++ [(ZeroShotPrompt.codeGenerationPrompt, z.params)]) ∧
    (∀ (z : FewShotPrompt) (w : World),
      (z.ExecuteSentimentAnalysis w).2.2 = (z.client.InvokeModel FewShotPrompt.sentimentAnalysisPrompt z.params w).2 ∧
      (z.ExecuteSentimentAnalysis w).2.2.invoked = w.invoked ++ [(FewShotPrompt.sentimentAnalysisPrompt, z.params)]) ∧
    (∀ (z : FewShotPrompt) (w : World),
      (z.ExecuteEntityExtraction w).2.2 = (z.client.InvokeModel FewShotPrompt.entityExtractionPrompt z.params w).2 ∧
      (z.ExecuteEntityExtraction w).2.2.invoked = w.invoked ++ [(FewShotPrompt.entityExtractionPrompt, z.params)]) ∧
    (∀ (z : FewShotPrompt) (w : World),
      (z.ExecuteCodeCompletion w).2.2 = (z.client.InvokeModel FewShotPrompt.codeCompletionPrompt z.params w).2 ∧
      (z.ExecuteCodeCompletion w).2.2.invoked = w.invoked ++ [(FewShotPrompt.codeCompletionPrompt, z.params)]) ∧
    (∀ (z : FewShotPrompt) (w : World),
      (z.ExecuteEmailClassification w).2.2 = (z.client.InvokeModel FewShotPrompt.emailClassificationPrompt z.params w).2 ∧
      (z.ExecuteEmailClassification w).2.2.invoked = w.invoked ++ [(FewShotPrompt.emailClassificationPrompt, z.params)]) ∧
    (∀ (z : FewShotPrompt) (w : World),
      (z.ExecuteCreativeWriting w).2.2 = (z.client.InvokeModel FewShotPrompt.creativeWritingPrompt ({ z.params with Temperature := Float64.ofRatio 8 10 }) w).2 ∧
      (z.ExecuteCreativeWriting w).2.2.invoked = w.invoked ++ [(FewShotPrompt.creativeWritingPrompt, { z.params with Temperature := Float64.ofRatio 8 10 })]) ∧
    (∀ (z : ChainOfThoughtPrompt) (w : World),
      (z.ExecuteMathProblemSolving w).2.2 = (z.client.InvokeModel ChainOfThoughtPrompt.mathProblemSolvingPrompt z.params w).2 ∧
      (z.ExecuteMathProblemSolving w).2.2.invoked = w.invoked ++ [(ChainOfThoughtPrompt.mathProblemSolvingPrompt, z.params)]) ∧
    (∀ (z : ChainOfThoughtPrompt) (w : World),
      (z.ExecuteLogicalReasoning w).2.2 = (z.client.InvokeModel ChainOfThoughtPrompt.logicalReasoningPrompt z.params w).2 ∧
      (z.ExecuteLogicalReasoning w).2.2.invoked = w.invoked ++ [(ChainOfThoughtPrompt.logicalReasoningPrompt, z.params)]) ∧
    (∀ (z : ChainOfThoughtPrompt) (w : World),
      (z.ExecuteProblemDecomposition w).2.2 = (z.client.InvokeModel ChainOfThoughtPrompt.problemDecompositionPrompt z.params w).2 ∧
      (z.ExecuteProblemDecomposition w).2.2.invoked = w.invoked ++ [(ChainOfThoughtPrompt.problemDecompositionPrompt, z.params)]) ∧
    (∀ (z : ChainOfThoughtPrompt) (w : World),
      (z.ExecuteCodeDebugging w).2.2 = (z.client.InvokeModel ChainOfThoughtPrompt.codeDebuggingPrompt z.params w).2 ∧
      (z.ExecuteCodeDebugging w).2.2.invoked = w.invoked ++ [(ChainOfThoughtPrompt.codeDebuggingPrompt, z.params)]) ∧
    (∀ (z : ChainOfThoughtPrompt) (w : World),
      (z.ExecuteDecisionMaking w).2.2 = (z.client.InvokeModel ChainOfThoughtPrompt.decisionMakingPrompt z.params w).2 ∧
      (z.ExecuteDecisionMaking w).2.2.invoked = w.invoked ++ [(ChainOfThoughtPrompt.decisionMakingPrompt, z.params)]) := by
  refine ⟨by rw [invokeModel_world], ?_, ?_,
    fun c' => by rw [invokeModel_world, invokeModel_world],
    fun e hf hc => by rw [invokeModel_fst_of_finite c prompt p w hf, hc],
    fun cfg hr => invokeModel_sent prompt p w cfg hr,
    fun cfg hf hb h1 => invokeModel_sent_once prompt p w cfg hf hb h1,
    fun cfg e hf hb hr he hre ht =>
      invokeModel_sent_again prompt p w cfg e hf hb hr he hre ht,
    fun z w => by rw [ZeroShotPrompt_ExecuteTextClassification_eq]; exact ⟨rfl, by rw [invokeModel_world]⟩,
    fun z w => by rw [ZeroShotPrompt_ExecuteQuestionAnswering_eq]; exact ⟨rfl, by rw [invokeModel_world]⟩,
    fun z w => by rw [ZeroShotPrompt_ExecuteLanguageTranslation_eq]; exact ⟨rfl, by rw [invokeModel_world]⟩,
    fun z w => by rw [ZeroShotPrompt_ExecuteCodeGeneration_eq]; exact ⟨rfl, by rw [invokeModel_world]⟩,
    fun z w => by rw [FewShotPrompt_ExecuteSentimentAnalysis_eq]; exact ⟨rfl, by rw [invokeModel_world]⟩,
    fun z w => by rw [FewShotPrompt_ExecuteEntityExtraction_eq]; exact ⟨rfl, by rw [invokeModel_world]⟩,
    fun z w => by rw [FewShotPrompt_ExecuteCodeCompletion_eq]; exact ⟨rfl, by rw [invokeModel_world]⟩,
    fun z w => by rw [FewShotPrompt_ExecuteEmailClassification_eq]; exact ⟨rfl, by rw [invokeModel_world]⟩,
    fun z w => by rw [FewShotPrompt_ExecuteCreativeWriting_eq]; exact ⟨rfl, by rw [invokeModel_world]⟩,
    fun z w => by rw [ChainOfThoughtPrompt_ExecuteMathProblemSolving_eq]; exact ⟨rfl, by rw [invokeModel_world]⟩,
    fun z w => by rw [ChainOfThoughtPrompt_ExecuteLogicalReasoning_eq]; exact ⟨rfl, by rw [invokeModel_world]⟩,
    fun z w => by rw [ChainOfThoughtPrompt_ExecuteProblemDecomposition_eq]; exact ⟨rfl, by rw [invokeModel_world]⟩,
    fun z w => by rw [ChainOfThoughtPrompt_ExecuteCodeDebugging_eq]; exact ⟨rfl, by rw [invokeModel_world]⟩,
    fun z w => by rw [ChainOfThoughtPrompt_ExecuteDecisionMaking_eq]; exact ⟨rfl, by rw [invokeModel_world]⟩⟩
  · cases h : finiteParams p with
    | true =>
      have h' := h
      simp only [finiteParams, Bool.and_eq_true] at h'
      rw [marshal_requestBody_of_finite prompt p h'.1 h'.2, invokeModel_world, if_pos h]
      rfl
    | false =>
      obtain ⟨err, hm, he⟩ := invokeModel_of_not_finite c prompt p w h
      rw [hm, he]
  · rw [invokeModel_world]
    split <;> simp

/-! ### C6 -/

/-- C6 fails as stated: for the prompt `hi` the prompt text delivered is another text. -/
theorem invokeModel_prompt_counterexample :
    (((failing (.sdk "down")).InvokeModel "hi" sampleParams World.start).2.requests.map
        (fun r => (r.Body.get? "prompt").bind stringOf))
      = [some "\n\nHuman: hi\n\nAssistant:"] ∧
    "\n\nHuman: hi\n\nAssistant:" ≠ "hi" := by
  refine ⟨by decide, by decide⟩

/-- C6, amended: for every prompt that is valid UTF-8 (every `String`) and all parameters,
every request `InvokeModel` delivers carries the caller's prompt between the fixed texts
`\n\nHuman: ` and `\n\nAssistant:` and the caller's `Temperature`, `TopP`, `TopK` and
`MaxTokens` unchanged, as the five members of the body and nothing else, and the caller's
`ModelID` as the model identifier. A prompt holding bytes that are not valid UTF-8 is
outside this statement: `encoding/json` writes U+FFFD for such bytes. -/
theorem invokeModel_delivers (c : Client) (prompt : String) (p : ModelParams) (w : World)
    (r : InvokeModelInput)
    (h : (c.InvokeModel prompt p w).2.requests = w.requests ++ [r]) :
    r.ModelId = p.ModelID ∧
    r.ContentType = "application/json" ∧
    r.Body = .object [ ("max_tokens_to_sample", .number (.int p.MaxTokens)),
                    ("prompt", .string ("\n\nHuman: " ++ prompt ++ "\n\nAssistant:")),
                    ("temperature", .number (.float64 p.Temperature)),
                    ("top_k", .number (.int p.TopK)),
                    ("top_p", .number (.float64 p.TopP)) ] := by
  rw [invokeModel_world] at h
  simp only at h
  split at h
  · have := List.append_cancel_left h
    cases this
    exact ⟨rfl, rfl, rfl⟩
  · have := congrArg List.length h
    simp at this

/-- C6, amended, at the prompt `hi`. -/
theorem invokeModel_delivers_witness :
    ((failing (.sdk "down")).InvokeModel "hi" sampleParams World.start).2.requests
      = World.start.requests ++ [requestOf "hi" sampleParams] ∧
    (requestOf "hi" sampleParams).ModelId = sampleParams.ModelID ∧
    (requestOf "hi" sampleParams).ContentType = "application/json" ∧
    (requestOf "hi" sampleParams).Body
      = .object [ ("max_tokens_to_sample", .number (.int sampleParams.MaxTokens)),
               ("prompt", .string ("\n\nHuman: " ++ "hi" ++ "\n\nAssistant:")),
               ("temperature", .number (.float64 sampleParams.Temperature)),
               ("top_k", .number (.int sampleParams.TopK)),
               ("top_p", .number (.float64 sampleParams.TopP)) ] :=
  ⟨rfl, invokeModel_delivers (failing (.sdk "down")) "hi" sampleParams World.start
    (requestOf "hi" sampleParams) rfl⟩

/-! ### C7 -/

/-- C7: one pass of the menu loop is decided by the whitespace-trimmed choice line. On `1`
it makes exactly the four zero-shot calls (text classification, question answering,
language translation, code generation), on `2` the five few-shot calls, on `3` the five
chain-of-thought calls, on `4` the fourteen calls of `1`, `2` and `3` in that order, and
then goes back to the menu; on `6` the loop ends and no call is made; on every string
other than `1` to `6` no call is made and the loop goes back to the menu. -/
theorem menu_dispatch (client : Client) (env : Env) (fuel : Nat) (stdin : Stdin) (w : World) :
    (displayMenu stdin).1 = TrimSpace (ReadString stdin).1 ∧
    (TrimSpace (ReadString stdin).1 = "1" →
      mainLoop client env (fuel + 1) stdin w =
        mainLoop client env fuel (ReadString (ReadString stdin).2).2
          (worldAfter w (zeroShotCalls env))) ∧
    (TrimSpace (ReadString stdin).1 = "2" →
      mainLoop client env (fuel + 1) stdin w =
        mainLoop client env fuel (ReadString (ReadString stdin).2).2
          (worldAfter w (fewShotCalls env))) ∧
    (TrimSpace (ReadString stdin).1 = "3" →
      mainLoop client env (fuel + 1) stdin w =
        mainLoop client env fuel (ReadString (ReadString stdin).2).2
          (worldAfter w (chainOfThoughtCalls env))) ∧
    (TrimSpace (ReadString stdin).1 = "4" →
      mainLoop client env (fuel + 1) stdin w =
        mainLoop client env fuel (ReadString (ReadString stdin).2).2
          (worldAfter w (zeroShotCalls env ++ fewShotCalls env ++ chainOfThoughtCalls env))) ∧
    (TrimSpace (ReadString stdin).1 = "6" →
      mainLoop client env (fuel + 1) stdin w = (.returned, w)) ∧
    (TrimSpace (ReadString stdin).1 ∉ ["1", "2", "3", "4", "5", "6"] →
      mainLoop client env (fuel + 1) stdin w =
        mainLoop client env fuel (ReadString (ReadString stdin).2).2 w) ∧
    (zeroShotCalls env).map Prod.fst =
        [ ZeroShotPrompt.textClassificationPrompt,
          ZeroShotPrompt.questionAnsweringPrompt,
          ZeroShotPrompt.languageTranslationPrompt,
          ZeroShotPrompt.codeGenerationPrompt ] ∧
    (fewShotCalls env).map Prod.fst =
        [ FewShotPrompt.sentimentAnalysisPrompt,
          FewShotPrompt.entityExtractionPrompt,
          FewShotPrompt.codeCompletionPrompt,
          FewShotPrompt.emailClassificationPrompt,
          FewShotPrompt.creativeWritingPrompt ] ∧
    (chainOfThoughtCalls env).map Prod.fst =
        [ ChainOfThoughtPrompt.mathProblemSolvingPrompt,
          ChainOfThoughtPrompt.logicalReasoningPrompt,
          ChainOfThoughtPrompt.problemDecompositionPrompt,
          ChainOfThoughtPrompt.codeDebuggingPrompt,
          ChainOfThoughtPrompt.decisionMakingPrompt ] := by
  refine ⟨rfl, ?_, ?_, ?_, ?_, ?_, ?_, rfl, rfl, rfl⟩
  · intro h
    rw [mainLoop_succ, if_pos h, runZeroShotExamples_eq]
  · intro h
    rw [mainLoop_succ, h, if_neg (by decide), if_pos rfl, runFewShotExamples_eq]
  · intro h
    rw [mainLoop_succ, h, if_neg (by decide), if_neg (by decide), if_pos rfl,
      runChainOfThoughtExamples_eq]
  · intro h
    rw [mainLoop_succ, h, if_neg (by decide), if_neg (by decide), if_neg (by decide),
      if_pos rfl, runAllExamples_eq]
  · intro h
    rw [mainLoop_succ, h, if_neg (by decide), if_neg (by decide), if_neg (by decide),
      if_neg (by decide), if_neg (by decide), if_pos rfl]
  · intro h
    simp only [List.mem_cons, List.mem_singleton, List.not_mem_nil, or_false, not_or] at h
    obtain ⟨h1, h2, h3, h4, h5, h6⟩ := h
    rw [mainLoop_succ, if_neg h1, if_neg h2, if_neg h3, if_neg h4, if_neg h5, if_neg h6]

/-- C7 at the input line ` 1 ` with one pass of the loop. -/
theorem menu_dispatch_witness :
    TrimSpace (ReadString [" 1 \n"]).1 = "1" ∧
    mainLoop (failing (.sdk "down")) sampleEnv 1 [" 1 \n"] World.start
      = (.running, worldAfter World.start (zeroShotCalls sampleEnv)) :=
  ⟨by decide,
    ((menu_dispatch (failing (.sdk "down")) sampleEnv 0 [" 1 \n"] World.start).2.1
      (by decide)).trans rfl⟩

/-! ### C8 -/

/-- C8: for every `FewShotPrompt` `f`, `ExecuteCreativeWriting` calls `InvokeModel` with the
parameters of `f` except for the temperature, which is 0.8, and leaves `f` with its
parameters as it was (for a new instance the temperature is still 0.5), so that any
example run after it behaves as if it had not run; and no example of the three tables
changes the instance it is run on. -/
theorem creativeWriting_frame (f : FewShotPrompt) (w : World) :
    (f.ExecuteCreativeWriting w).2.1 = f ∧
    (f.ExecuteCreativeWriting w).2.1.params = f.params ∧
    (f.ExecuteCreativeWriting w).2.2.invoked =
      w.invoked ++ [(FewShotPrompt.creativeWritingPrompt,
        { ModelID := f.params.ModelID, Temperature := Float64.ofRatio 8 10,
          TopP := f.params.TopP, TopK := f.params.TopK, MaxTokens := f.params.MaxTokens })] ∧
    (f.params.TopP.IsFinite = true →
      (f.ExecuteCreativeWriting w).2.2.requests =
        w.requests ++ [requestOf FewShotPrompt.creativeWritingPrompt
          { ModelID := f.params.ModelID, Temperature := Float64.ofRatio 8 10,
            TopP := f.params.TopP, TopK := f.params.TopK,
            MaxTokens := f.params.MaxTokens }]) ∧
    (Float64.ofRatio 8 10).toRat = 3602879701896397 / 4503599627370496 ∧
    |(Float64.ofRatio 8 10).toRat - 8 / 10| ≤ 1 / 2 ^ 54 ∧
    (∀ (c : Client) (env : Env),
      ((NewFewShotPrompt c env).ExecuteCreativeWriting w).2.1.params.Temperature
        = Float64.ofRatio 5 10) ∧
    (∀ ex ∈ FewShotPrompt.examples, ∀ w' : World,
      ex.2 (f.ExecuteCreativeWriting w).2.1 w' = ex.2 f w') ∧
    (∀ ex ∈ ZeroShotPrompt.examples, ∀ (z : ZeroShotPrompt) (w' : World),
      (ex.2 z w').2.1 = z) ∧
    (∀ ex ∈ FewShotPrompt.examples, ∀ (z : FewShotPrompt) (w' : World),
      (ex.2 z w').2.1 = z) ∧
    (∀ ex ∈ ChainOfThoughtPrompt.examples, ∀ (z : ChainOfThoughtPrompt) (w' : World),
      (ex.2 z w').2.1 = z) := by
  have h1 : (f.ExecuteCreativeWriting w).2.1 = f := by
    rw [FewShotPrompt_ExecuteCreativeWriting_eq]
  refine ⟨h1, by rw [h1], ?_, ?_, toRat_8_10, ?_, ?_, ?_, ZeroShotPrompt_examples_receiver,
    FewShotPrompt_examples_receiver, ChainOfThoughtPrompt_examples_receiver⟩
  · rw [FewShotPrompt_ExecuteCreativeWriting_eq, invokeModel_world]
  · intro hP
    rw [FewShotPrompt_ExecuteCreativeWriting_eq, invokeModel_world, if_pos]
    simp only [finiteParams, fin_8_10, hP, Bool.and_self]
  · rw [toRat_8_10, abs_le]
    constructor <;> norm_num
  · intro c env
    rw [FewShotPrompt_ExecuteCreativeWriting_eq]
    rfl
  · intro ex _ w'
    rw [h1]

/-! ### C9 -/

/-- C9: the default parameters are the `MODEL_ID` of the environment, temperature 0.7,
top-p 1.0, top-k 500 and 500 tokens. `NewZeroShotPrompt` changes only the temperature,
to 0.3; `NewFewShotPrompt` only the temperature, to 0.5, and the tokens, to 800;
`NewChainOfThoughtPrompt` only the temperature, to 0.4, and the tokens, to 1000. Each
of these temperatures is lower than the default and each changed token count is
higher; model, top-p and top-k are the defaults. -/
theorem constructors_frame (c : Client) (env : Env) :
    GetDefaultClaudeParams env =
      { ModelID := env "MODEL_ID", Temperature := Float64.ofRatio 7 10,
        TopP := Float64.ofRatio 10 10, TopK := 500, MaxTokens := 500 } ∧
    (NewZeroShotPrompt c env).params =
      { GetDefaultClaudeParams env with Temperature := Float64.ofRatio 3 10 } ∧
    (NewFewShotPrompt c env).params =
      { GetDefaultClaudeParams env with Temperature := Float64.ofRatio 5 10, MaxTokens := 800 } ∧
    (NewChainOfThoughtPrompt c env).params =
      { GetDefaultClaudeParams env with Temperature := Float64.ofRatio 4 10, MaxTokens := 1000 } ∧
    ((NewZeroShotPrompt c env).params.Temperature.toRat
        < (GetDefaultClaudeParams env).Temperature.toRat ∧
      (NewFewShotPrompt c env).params.Temperature.toRat
        < (GetDefaultClaudeParams env).Temperature.toRat ∧
      (NewChainOfThoughtPrompt c env).params.Temperature.toRat
        < (GetDefaultClaudeParams env).Temperature.toRat) ∧
    ((GetDefaultClaudeParams env).MaxTokens < (NewFewShotPrompt c env).params.MaxTokens ∧
      (GetDefaultClaudeParams env).MaxTokens
        < (NewChainOfThoughtPrompt c env).params.MaxTokens ∧
      (NewZeroShotPrompt c env).params.MaxTokens = (GetDefaultClaudeParams env).MaxTokens) ∧
    ((NewZeroShotPrompt c env).params.ModelID = env "MODEL_ID" ∧
      (NewFewShotPrompt c env).params.ModelID = env "MODEL_ID" ∧
      (NewChainOfThoughtPrompt c env).params.ModelID = env "MODEL_ID") ∧
    ((NewZeroShotPrompt c env).params.TopP = (GetDefaultClaudeParams env).TopP ∧
      (NewFewShotPrompt c env).params.TopP = (GetDefaultClaudeParams env).TopP ∧
      (NewChainOfThoughtPrompt c env).params.TopP = (GetDefaultClaudeParams env).TopP) ∧
    ((NewZeroShotPrompt c env).params.TopK = (GetDefaultClaudeParams env).TopK ∧
      (NewFewShotPrompt c env).params.TopK = (GetDefaultClaudeParams env).TopK ∧
      (NewChainOfThoughtPrompt c env).params.TopK = (GetDefaultClaudeParams env).TopK) ∧
    (|(Float64.ofRatio 7 10).toRat - 7 / 10| ≤ 1 / 2 ^ 54 ∧
      (Float64.ofRatio 10 10).toRat = 1 ∧
      |(Float64.ofRatio 3 10).toRat - 3 / 10| ≤ 1 / 2 ^ 55 ∧
      (Float64.ofRatio 5 10).toRat = 1 / 2 ∧
      |(Float64.ofRatio 4 10).toRat - 4 / 10| ≤ 1 / 2 ^ 55) := by
  refine ⟨rfl, rfl, rfl, rfl, ⟨?_, ?_, ?_⟩, ⟨?_, ?_, rfl⟩, ⟨rfl, rfl, rfl⟩, ⟨rfl, rfl, rfl⟩,
    ⟨rfl, rfl, rfl⟩, ⟨?_, ?_, ?_, ?_, ?_⟩⟩
  · show (Float64.ofRatio 3 10).toRat < (Float64.ofRatio 7 10).toRat
    rw [toRat_3_10, toRat_7_10]; norm_num
  · show (Float64.ofRatio 5 10).toRat < (Float64.ofRatio 7 10).toRat
    rw [toRat_5_10, toRat_7_10]; norm_num
  · show (Float64.ofRatio 4 10).toRat < (Float64.ofRatio 7 10).toRat
    rw [toRat_4_10, toRat_7_10]; norm_num
  · show (500 : Int) < 800
    decide
  · show (500 : Int) < 1000
    decide
  · rw [toRat_7_10, abs_le]; constructor <;> norm_num
  · rw [toRat_10_10]; norm_num
  · rw [toRat_3_10, abs_le]; constructor <;> norm_num
  · rw [toRat_5_10]
  · rw [toRat_4_10, abs_le]; constructor <;> norm_num

/-! ### C10 -/

theorem main_inRange (dotenv : Option GoError) (loadDefaultConfig : Except GoError Remote)
    (env : Env) (fuel : Nat) (stdin : Stdin) :
    ∀ x ∈ (main dotenv loadDefaultConfig env fuel stdin).2.invoked, inRange x.2 := by
  have h0 : ∀ x ∈ ({ invoked := [], requests := [] } : World).invoked, inRange x.2 := by
    intro x hx; cases hx
  unfold main
  cases dotenv with
  | some err => exact h0
  | none =>
    cases loadDefaultConfig with
    | error err => exact h0
    | ok cfg => exact mainLoop_inRange _ env fuel stdin _ h0

/-- C10: in every environment and on every input, each `ModelParams` the program passes to
`InvokeModel` has a finite temperature between 0 and 1, a finite top-p between 0 and
1, and positive top-k and token count. -/
theorem params_in_range (dotenv : Option GoError) (loadDefaultConfig : Except GoError Remote)
    (env : Env) (fuel : Nat) (stdin : Stdin) (x : String × ModelParams)
    (hx : x ∈ (main dotenv loadDefaultConfig env fuel stdin).2.invoked) :
    x.2.Temperature.IsFinite = true ∧ 0 ≤ x.2.Temperature.toRat ∧ x.2.Temperature.toRat ≤ 1 ∧
    x.2.TopP.IsFinite = true ∧ 0 ≤ x.2.TopP.toRat ∧ x.2.TopP.toRat ≤ 1 ∧
    0 < x.2.TopK ∧ 0 < x.2.MaxTokens :=
  main_inRange dotenv loadDefaultConfig env fuel stdin x hx

/-- C10 at a run that enters interactive mode and sends the prompt `hello`. -/
theorem params_in_range_witness :
    ("hello", sampleParams) ∈
      (main none (.ok (fun _ _ => .error (.sdk "down"))) sampleEnv 3
        ["5\n", " hello \n", "exit\n"]).2.invoked ∧
    sampleParams.Temperature.IsFinite = true ∧ 0 ≤ sampleParams.Temperature.toRat ∧
    sampleParams.Temperature.toRat ≤ 1 ∧
    sampleParams.TopP.IsFinite = true ∧ 0 ≤ sampleParams.TopP.toRat ∧
    sampleParams.TopP.toRat ≤ 1 ∧
    0 < sampleParams.TopK ∧ 0 < sampleParams.MaxTokens :=
  ⟨by decide,
    params_in_range none (.ok (fun _ _ => .error (.sdk "down"))) sampleEnv 3
      ["5\n", " hello \n", "exit\n"] ("hello", sampleParams) (by decide)⟩

/-! ### C11 -/

theorem finite_default (env : Env) : finiteParams (GetDefaultClaudeParams env) = true := by
  show ((Float64.ofRatio 7 10).IsFinite && (Float64.ofRatio 10 10).IsFinite) = true
  rw [fin_7_10, fin_10_10]; rfl

theorem worldAfter_nil (w : World) : worldAfter w [] = w := by
  cases w; simp [worldAfter]

theorem invokeModel_default (client : Client) (env : Env) (prompt : String) (w : World) :
    (client.InvokeModel prompt (GetDefaultClaudeParams env) w).2
      = worldAfter w [(prompt, GetDefaultClaudeParams env)] := by
  rw [invokeModel_world, if_pos (finite_default env)]
  rfl

theorem interactiveLoop_until_exit (client : Client) (env : Env) (exitLine : String)
    (rest : Stdin) (k : Nat) (hexit : isExitLine exitLine = true) :
    ∀ (pre : List String) (w : World), (∀ l ∈ pre, isExitLine l = false) →
      interactiveLoop client (GetDefaultClaudeParams env) (pre.length + 1 + k)
          (pre ++ exitLine :: rest) w
        = (some rest, worldAfter w (interactiveCalls env pre)) := by
  intro pre
  induction pre with
  | nil =>
    intro w _
    have he : ToLower (TrimSpace exitLine) = "exit" := eq_of_beq hexit
    have hf : ([] : List String).length + 1 + k = k + 1 := by simp [Nat.add_comm]
    rw [hf, interactiveLoop_succ]
    simp only [List.nil_append, ReadString]
    rw [if_pos he]
    simp [interactiveCalls, worldAfter_nil]
  | cons l pre ih =>
    intro w hpre
    have hl : ToLower (TrimSpace l) ≠ "exit" := by
      have := hpre l (List.mem_cons_self _ _)
      simpa [isExitLine] using this
    have hpre' : ∀ x ∈ pre, isExitLine x = false :=
      fun x hx => hpre x (List.mem_cons_of_mem _ hx)
    have hf : (l :: pre).length + 1 + k = (pre.length + 1 + k) + 1 := by
      simp only [List.length_cons]; omega
    rw [hf, interactiveLoop_succ]
    simp only [List.cons_append, ReadString]
    rw [if_neg hl]
    by_cases hb : TrimSpace l = ""
    · rw [if_pos hb, ih w hpre']
      have : isBlankLine l = true := by simp [isBlankLine, hb]
      simp [interactiveCalls, this]
    · rw [if_neg hb, invokeModel_default, ih _ hpre', after_after]
      have : isBlankLine l = false := by simp [isBlankLine, hb]
      simp [interactiveCalls, this]

theorem interactiveLoop_no_exit (client : Client) (params : ModelParams) :
    ∀ (fuel : Nat) (stdin : Stdin) (w : World), (∀ l ∈ stdin, isExitLine l = false) →
      (interactiveLoop client params fuel stdin w).1 = none := by
  intro fuel
  induction fuel with
  | zero => intro stdin w _; rfl
  | succ fuel ih =>
    intro stdin w h
    have hne : ToLower (TrimSpace (ReadString stdin).1) ≠ "exit" := by
      cases stdin with
      | nil => simp only [ReadString]; decide
      | cons l rest =>
        have := h l (List.mem_cons_self _ _)
        simpa [isExitLine, ReadString] using this
    have hrest : ∀ l ∈ (ReadString stdin).2, isExitLine l = false := by
      cases stdin with
      | nil => intro l hl; cases hl
      | cons l rest => exact fun x hx => h x (List.mem_cons_of_mem _ hx)
    rw [interactiveLoop_succ, if_neg hne]
    split
    · exact ih _ _ hrest
    · exact ih _ _ hrest

/-- C11: reading the lines in order, interactive mode returns at the first line whose
trimmed, lower-cased text is `exit` (`EXIT` and `  Exit  ` are such lines), without
sending it, and leaves the lines after it unread; before that line, a line that is empty
once trimmed makes no call, and every other line is sent trimmed in exactly one
`InvokeModel` call with the default parameters, whatever the endpoint answers. So the
number of calls is the number of non-blank lines before the first exit line. Without an
exit line the mode is never left. -/
theorem interactive_mode (client : Client) (env : Env) (pre : List String)
    (exitLine : String) (rest : Stdin) (w : World) (k : Nat)
    (hpre : ∀ l ∈ pre, isExitLine l = false) (hexit : isExitLine exitLine = true) :
    runInteractiveMode client env (pre.length + 1 + k) (pre ++ exitLine :: rest) w
      = (some rest, worldAfter w (interactiveCalls env pre)) ∧
    (worldAfter w (interactiveCalls env pre)).invoked
      = w.invoked ++ (pre.filter (fun l => !isBlankLine l)).map
          (fun l => (TrimSpace l, GetDefaultClaudeParams env)) ∧
    (worldAfter w (interactiveCalls env pre)).invoked.length
      = w.invoked.length + (pre.filter (fun l => !isBlankLine l)).length ∧
    (worldAfter w (interactiveCalls env pre)).requests.length
      = w.requests.length + (pre.filter (fun l => !isBlankLine l)).length ∧
    (∀ line : String, isExitLine line = (ToLower (TrimSpace line) == "exit")) ∧
    isExitLine "exit" = true ∧ isExitLine "EXIT" = true ∧ isExitLine "  Exit  \n" = true ∧
    (∀ (fuel : Nat) (stdin : Stdin), (∀ l ∈ stdin, isExitLine l = false) →
      (runInteractiveMode client env fuel stdin w).1 = none) := by
  refine ⟨interactiveLoop_until_exit client env exitLine rest k hexit pre w hpre, rfl, ?_, ?_,
    fun _ => rfl, by decide, by decide, by decide, ?_⟩
  · simp [worldAfter, interactiveCalls]
  · simp [worldAfter, interactiveCalls]
  · intro fuel stdin h
    exact interactiveLoop_no_exit client _ fuel stdin w h

/-- C11 on five lines with a failing endpoint: two prompts are sent, the blank line is
not, the mode is left at `EXIT` and the line after it is not read. -/
theorem interactive_mode_witness :
    (∀ l ∈ ["  What is Go?  \n", "   \n", "exit now\n"], isExitLine l = false) ∧
    isExitLine " EXIT \n" = true ∧
    runInteractiveMode (failing (.sdk "down")) sampleEnv 4
        (["  What is Go?  \n", "   \n", "exit now\n"] ++ " EXIT \n" :: ["1\n"]) World.start
      = (some ["1\n"],
          worldAfter World.start [("What is Go?", sampleParams), ("exit now", sampleParams)]) :=
  ⟨by decide, by decide,
    (interactive_mode (failing (.sdk "down")) sampleEnv
      ["  What is Go?  \n", "   \n", "exit now\n"] " EXIT \n" ["1\n"] World.start 0
      (by decide) (by decide)).1.trans rfl⟩

/-! ### Reading back the text of a request body -/

theorem hexValue_hexDigit : ∀ d, d < 16 → hexValue (hexDigit d) = some d := by decide

theorem hex4_low (n : Nat) (h : n < 128) :
    hex4 '0' '0' (hexDigit (n / 16)) (hexDigit (n % 16)) = some n := by
  have h1 := hexValue_hexDigit (n / 16) (by omega)
  have h2 := hexValue_hexDigit (n % 16) (by omega)
  have h0 : hexValue '0' = some 0 := by decide
  simp only [hex4, h0, h1, h2]
  congr 1
  omega

theorem unquote_plain (fuel : Nat) (c : Char) (rest acc : List Char)
    (h1 : c ≠ '"') (h2 : c ≠ '\\') (h3 : ¬ c.toNat < 0x20) :
    unquote (fuel + 1) (c :: rest) acc = unquote fuel rest (c :: acc) := by
  simp only [unquote, if_neg h1, if_neg h2, if_neg h3]

theorem unquote_simple (fuel : Nat) (e r : Char) (rest acc : List Char)
    (h1 : e ≠ 'u') (h2 : simpleEscape e = some r) :
    unquote (fuel + 1) ('\\' :: e :: rest) acc = unquote fuel rest (r :: acc) := by
  have hq : ('\\' : Char) ≠ '"' := by decide
  simp only [unquote, if_neg hq, if_true, if_neg h1, h2]

theorem unquote_u (fuel : Nat) (h1 h2 h3 h4 : Char) (v : Nat) (rest acc : List Char)
    (hv : hex4 h1 h2 h3 h4 = some v) (hs : ¬ (0xD800 ≤ v ∧ v < 0xE000)) :
    unquote (fuel + 1) ('\\' :: 'u' :: h1 :: h2 :: h3 :: h4 :: rest) acc
      = unquote fuel rest (Char.ofNat v :: acc) := by
  have hq : ('\\' : Char) ≠ '"' := by decide
  simp only [unquote, if_neg hq, if_true, hv, if_neg hs]

theorem unquote_appendRune (short : Bool) (fuel : Nat) (c : Char) (rest acc : List Char) :
    unquote (fuel + 1) (appendRune short c ++ rest) acc = unquote fuel rest (c :: acc) := by
  unfold appendRune
  split_ifs with h80 hsafe hq hb hf hn hr ht h2028
  · simp only [htmlSafe, Bool.and_eq_true, decide_eq_true_eq, bne_iff_ne, ne_eq] at hsafe
    obtain ⟨⟨⟨⟨⟨⟨h20, _⟩, h1⟩, h2⟩, _⟩, _⟩, _⟩ := hsafe
    exact unquote_plain fuel c rest acc h1 h2 (by omega)
  · rcases hq with rfl | rfl
    · exact unquote_simple fuel '\\' '\\' rest acc (by decide) (by decide)
    · exact unquote_simple fuel '"' '"' rest acc (by decide) (by decide)
  · obtain ⟨rfl, _⟩ := hb
    exact unquote_simple fuel 'b' '\x08' rest acc (by decide) (by decide)
  · obtain ⟨rfl, _⟩ := hf
    exact unquote_simple fuel 'f' '\x0c' rest acc (by decide) (by decide)
  · subst hn
    exact unquote_simple fuel 'n' '\n' rest acc (by decide) (by decide)
  · subst hr
    exact unquote_simple fuel 'r' '\r' rest acc (by decide) (by decide)
  · subst ht
    exact unquote_simple fuel 't' '\t' rest acc (by decide) (by decide)
  · have := unquote_u fuel '0' '0' (hexDigit (c.toNat / 16)) (hexDigit (c.toNat % 16))
      c.toNat rest acc (hex4_low c.toNat h80) (by omega)
    rw [Char.ofNat_toNat] at this
    exact this
  · rcases h2028 with rfl | rfl
    · exact unquote_u fuel '2' '0' '2' '8' 0x2028 rest acc (by decide) (by decide)
    · exact unquote_u fuel '2' '0' '2' '9' 0x2029 rest acc (by decide) (by decide)
  · refine unquote_plain fuel c rest acc ?_ ?_ (by omega)
    · rintro rfl; exact h80 (by decide)
    · rintro rfl; exact h80 (by decide)

theorem appendRune_ne_nil (short : Bool) (c : Char) : 1 ≤ (appendRune short c).length := by
  unfold appendRune
  split_ifs <;> simp

theorem appendRunes_length (short : Bool) (cs : List Char) :
    cs.length ≤ (appendRunes short cs).length := by
  induction cs with
  | nil => simp [appendRunes]
  | cons c cs ih =>
    have := appendRune_ne_nil short c
    simp only [appendRunes, List.length_append, List.length_cons]
    omega

theorem unquote_appendRunes (short : Bool) (rest : List Char) :
    ∀ (cs : List Char) (fuel : Nat) (acc : List Char), cs.length + 1 ≤ fuel →
      unquote fuel (appendRunes short cs ++ '"' :: rest) acc
        = some (String.mk (acc.reverse ++ cs), rest) := by
  intro cs
  induction cs with
  | nil =>
    intro fuel acc h
    obtain ⟨f, rfl⟩ : ∃ f, fuel = f + 1 := ⟨fuel - 1, by simp at h; omega⟩
    simp [appendRunes, unquote]
  | cons c cs ih =>
    intro fuel acc h
    obtain ⟨f, rfl⟩ : ∃ f, fuel = f + 1 := ⟨fuel - 1, by simp at h; omega⟩
    simp only [appendRunes, List.append_assoc]
    rw [unquote_appendRune, ih f (c :: acc) (by simp at h ⊢; omega)]
    simp

theorem decodeValue_appendString (short : Bool) (s : String) (rest : List Char) :
    decodeValue (appendString short s ++ rest) = some (.string s, rest) := by
  have hlen : s.length ≤ (appendRunes short s.data).length := appendRunes_length short s.data
  have key : appendString short s ++ rest
      = '"' :: (appendRunes short s.data ++ '"' :: rest) := by
    simp [appendString]
  rw [key]
  simp only [decodeValue, if_true]
  rw [unquote_appendRunes short rest s.data _ [] (by simp; omega)]
  simp

theorem takeWhile_append_stop (p : Char → Bool) (d : Char) (rest : List Char) (hd : p d = false) :
    ∀ t : List Char, t.all p = true →
      (t ++ d :: rest).takeWhile p = t ∧ (t ++ d :: rest).dropWhile p = d :: rest := by
  intro t
  induction t with
  | nil => intro _; simp [List.takeWhile, List.dropWhile, hd]
  | cons c t ih =>
    intro h
    simp only [List.all_cons, Bool.and_eq_true] at h
    obtain ⟨h1, h2⟩ := ih h.2
    simp [List.takeWhile, List.dropWhile, h.1, h1, h2]

theorem decodeValue_number (t : List Char) (d : Char) (rest : List Char)
    (ht : isNumberText t = true) (hd : isNumberChar d = false) :
    decodeValue (t ++ d :: rest) = some (.number (.literal (String.mk t)), d :: rest) := by
  cases t with
  | nil => simp [isNumberText] at ht
  | cons c t =>
    simp only [isNumberText, Bool.and_eq_true, Bool.or_eq_true, beq_iff_eq,
      decide_eq_true_eq] at ht
    obtain ⟨hc, hall⟩ := ht
    obtain ⟨h1, h2⟩ := takeWhile_append_stop isNumberChar d rest hd (c :: t) hall
    have hq : c ≠ '"' := by
      rintro rfl
      rcases hc with h | h
      · exact absurd h (by decide)
      · exact absurd h (by decide)
    have hc' : c = '-' ∨ ('0' ≤ c ∧ c ≤ '9') := hc
    have e : c :: t ++ d :: rest = c :: (t ++ d :: rest) := rfl
    rw [e] at h1 h2 ⊢
    simp only [decodeValue, if_neg hq, if_pos hc', h1, h2]

theorem stop_not_numberChar (d : Char) (hd : d = ',' ∨ d = '}') : isNumberChar d = false := by
  rcases hd with rfl | rfl <;> decide

theorem decodeValue_flat (short : Bool) (fmt : Float64 → List Char) (v : Json) (d : Char)
    (rest : List Char) (hv : isFlatValue fmt v = true) (hd : d = ',' ∨ d = '}') :
    decodeValue (v.text short fmt ++ d :: rest) = some (readBack fmt v, d :: rest) := by
  cases v with
  | string s =>
    simp only [Json.text, readBack]
    exact decodeValue_appendString short s (d :: rest)
  | number n =>
    simp only [Json.text, readBack]
    exact decodeValue_number _ d rest hv (stop_not_numberChar d hd)
  | null => simp [isFlatValue] at hv
  | bool b => simp [isFlatValue] at hv
  | array items => simp [isFlatValue] at hv
  | object members => simp [isFlatValue] at hv

theorem skipSpace_cons (c : Char) (cs : List Char) (h : isJsonSpace c = false) :
    skipSpace (c :: cs) = c :: cs := by
  simp [skipSpace, List.dropWhile, h]

theorem flat_text_head (short : Bool) (fmt : Float64 → List Char) (v : Json)
    (hv : isFlatValue fmt v = true) :
    ∃ c cs, v.text short fmt = c :: cs ∧ isJsonSpace c = false := by
  cases v with
  | string s =>
    exact ⟨'"', appendRunes short s.data ++ ['"'], by simp [Json.text, appendString], by decide⟩
  | number n =>
    simp only [isFlatValue] at hv
    simp only [Json.text]
    cases h : n.text fmt with
    | nil => rw [h] at hv; simp [isNumberText] at hv
    | cons c t =>
      rw [h] at hv
      simp only [isNumberText, Bool.and_eq_true, Bool.or_eq_true, beq_iff_eq,
        decide_eq_true_eq] at hv
      refine ⟨c, t, rfl, ?_⟩
      rcases hv.1 with rfl | ⟨h0, h9⟩
      · decide
      · simp only [isJsonSpace, Bool.or_eq_false_iff, beq_eq_false_iff_ne, ne_eq]
        refine ⟨⟨⟨?_, ?_⟩, ?_⟩, ?_⟩ <;> (rintro rfl; exact absurd h0 (by decide))
  | null => simp [isFlatValue] at hv
  | bool b => simp [isFlatValue] at hv
  | array items => simp [isFlatValue] at hv
  | object members => simp [isFlatValue] at hv

theorem decodeMembers_member (short : Bool) (fmt : Float64 → List Char) (fuel : Nat)
    (k : String) (v : Json) (d : Char) (next : List Char) (acc : List (String × Json))
    (hv : isFlatValue fmt v = true) (hd : d = ',' ∨ d = '}') :
    decodeMembers (fuel + 1)
        (appendString short k ++ ':' :: (v.text short fmt ++ d :: next)) acc
      = if d = ',' then decodeMembers fuel next ((k, readBack fmt v) :: acc)
        else some (((k, readBack fmt v) :: acc).reverse, next) := by
  have hlen : k.length ≤ (appendRunes short k.data).length := appendRunes_length short k.data
  have key : appendString short k ++ ':' :: (v.text short fmt ++ d :: next)
      = '"' :: (appendRunes short k.data ++ '"' :: ':' :: (v.text short fmt ++ d :: next)) := by
    simp [appendString]
  obtain ⟨c, cs, hc, hsp⟩ := flat_text_head short fmt v hv
  have hval := decodeValue_flat short fmt v d next hv hd
  have hsv : skipSpace (v.text short fmt ++ d :: next) = v.text short fmt ++ d :: next := by
    rw [hc]; exact skipSpace_cons c _ hsp
  have hsd : skipSpace (d :: next) = d :: next := by
    apply skipSpace_cons
    rcases hd with rfl | rfl <;> decide
  rw [key]
  simp only [decodeMembers]
  rw [skipSpace_cons '"' _ (by decide)]
  simp only [if_true]
  rw [unquote_appendRunes short _ k.data _ [] (by simp; omega)]
  simp only [List.reverse_nil, List.nil_append]
  rw [skipSpace_cons ':' _ (by decide)]
  simp only [if_true]
  rw [hsv, hval]
  simp only
  rw [hsd]
  simp only
  rcases hd with rfl | rfl
  · simp
  · have : ('}' : Char) ≠ ',' := by decide
    simp [this]

theorem textMembers_shape (short : Bool) (fmt : Float64 → List Char) (x : String × Json)
    (ms : List (String × Json)) (rest : List Char) :
    textMembers short fmt (x :: ms) ++ '}' :: rest
      = appendString short x.1 ++ ':' :: (x.2.text short fmt ++
          (match ms with
            | [] => '}' :: rest
            | y :: ms' => ',' :: (textMembers short fmt (y :: ms') ++ '}' :: rest))) := by
  obtain ⟨k, v⟩ := x
  cases ms with
  | nil => simp [textMembers]
  | cons y ms' => simp [textMembers]

theorem decodeMembers_text (short : Bool) (fmt : Float64 → List Char) (rest : List Char) :
    ∀ (ms : List (String × Json)) (x : String × Json) (fuel : Nat)
      (acc : List (String × Json)),
      (∀ kv ∈ x :: ms, isFlatValue fmt kv.2 = true) → ms.length + 1 ≤ fuel →
      decodeMembers fuel (textMembers short fmt (x :: ms) ++ '}' :: rest) acc
        = some (acc.reverse ++ (x :: ms).map (fun kv => (kv.1, readBack fmt kv.2)), rest) := by
  intro ms
  induction ms with
  | nil =>
    intro x fuel acc hflat hfuel
    obtain ⟨f, rfl⟩ : ∃ f, fuel = f + 1 := ⟨fuel - 1, by simp at hfuel; omega⟩
    rw [textMembers_shape]
    simp only
    rw [decodeMembers_member short fmt f x.1 x.2 '}' rest acc
      (hflat x (List.mem_cons_self _ _)) (Or.inr rfl)]
    have : ('}' : Char) ≠ ',' := by decide
    simp [this]
  | cons y ms ih =>
    intro x fuel acc hflat hfuel
    obtain ⟨f, rfl⟩ : ∃ f, fuel = f + 1 := ⟨fuel - 1, by simp at hfuel; omega⟩
    rw [textMembers_shape]
    simp only
    rw [decodeMembers_member short fmt f x.1 x.2 ',' _ acc
      (hflat x (List.mem_cons_self _ _)) (Or.inl rfl)]
    simp only [if_true]
    rw [ih y f _ (fun kv hkv => hflat kv (List.mem_cons_of_mem _ hkv))
      (by simp at hfuel ⊢; omega)]
    simp

theorem textMembers_length (short : Bool) (fmt : Float64 → List Char) :
    ∀ (ms : List (String × Json)) (x : String × Json),
      ms.length + 1 ≤ (textMembers short fmt (x :: ms)).length := by
  intro ms
  induction ms with
  | nil =>
    intro x
    obtain ⟨k, v⟩ := x
    simp [textMembers, appendString]
  | cons y ms ih =>
    intro x
    obtain ⟨k, v⟩ := x
    have := ih y
    simp only [textMembers, List.length_append, List.length_cons] at this ⊢
    omega

theorem decodeObject_text (short : Bool) (fmt : Float64 → List Char) (x : String × Json)
    (ms : List (String × Json)) (hflat : ∀ kv ∈ x :: ms, isFlatValue fmt kv.2 = true) :
    decodeObject ((Json.object (x :: ms)).text short fmt)
      = some ((x :: ms).map (fun kv => (kv.1, readBack fmt kv.2))) := by
  have hlen := textMembers_length short fmt ms x
  have hdec := decodeMembers_text short fmt [] ms x
    (('{' :: (textMembers short fmt (x :: ms) ++ ['}'])).length) [] hflat
    (by simp only [List.length_cons, List.length_append]; omega)
  have hhead : ∃ cs, textMembers short fmt (x :: ms) ++ ['}'] = '"' :: cs := by
    refine ⟨(textMembers short fmt (x :: ms) ++ ['}']).tail, ?_⟩
    rw [textMembers_shape]
    simp [appendString]
  obtain ⟨cs, hcs⟩ := hhead
  have hq : ('"' : Char) ≠ '}' := by decide
  simp only [Json.text, decodeObject, List.cons_append]
  rw [skipSpace_cons '{' _ (by decide)]
  simp only [if_true]
  rw [hcs, skipSpace_cons '"' _ (by decide)]
  simp only [if_neg hq]
  rw [← hcs, hdec]
  simp [skipSpace]

theorem digit_ofNat : ∀ d, d < 10 →
    (decide ('0' ≤ Char.ofNat (48 + d)) && decide (Char.ofNat (48 + d) ≤ '9')) = true ∧
    isNumberChar (Char.ofNat (48 + d)) = true := by
  decide

theorem natDigits_digits : ∀ (fuel n : Nat) (acc : List Char),
    ∃ c cs, natDigits fuel n acc = c :: (cs ++ acc) ∧
      (decide ('0' ≤ c) && decide (c ≤ '9')) = true ∧ isNumberChar c = true ∧
      cs.all isNumberChar = true := by
  intro fuel
  induction fuel with
  | zero =>
    intro n acc
    have hd := digit_ofNat (n % 10) (Nat.mod_lt _ (by decide))
    exact ⟨_, [], by simp [natDigits], hd.1, hd.2, rfl⟩
  | succ fuel ih =>
    intro n acc
    by_cases hn : n < 10
    · have hd := digit_ofNat n hn
      exact ⟨_, [], by simp [natDigits, hn], hd.1, hd.2, rfl⟩
    · obtain ⟨c, cs, h, hc, hc', hcs⟩ := ih (n / 10) (Char.ofNat (48 + n % 10) :: acc)
      have hd := digit_ofNat (n % 10) (Nat.mod_lt _ (by decide))
      refine ⟨c, cs ++ [Char.ofNat (48 + n % 10)], ?_, hc, hc', ?_⟩
      · simp only [natDigits, if_neg hn, h, List.append_assoc, List.singleton_append]
      · simp only [List.all_append, hcs, List.all_cons, hd.2, List.all_nil, Bool.and_self]

theorem formatInt_numberText (i : Int) : isNumberText (formatInt i) = true := by
  cases i with
  | ofNat n =>
    obtain ⟨c, cs, h, hc, hc', hcs⟩ := natDigits_digits n n []
    simp only [formatInt, h, isNumberText, List.append_nil, List.all_cons, hc, hc', hcs,
      Bool.or_true, Bool.and_self]
  | negSucc n =>
    obtain ⟨c, cs, h, hc, hc', hcs⟩ := natDigits_digits (n + 1) (n + 1) []
    have hm : isNumberChar '-' = true := by decide
    simp only [formatInt, h, isNumberText, List.append_nil, List.all_cons, hm, hc', hcs,
      beq_self_eq_true, Bool.true_or, Bool.and_self]

theorem decodeObject_bodyOf (short : Bool) (fmt : Float64 → List Char) (prompt : String)
    (p : ModelParams) (hT : isNumberText (fmt p.Temperature) = true)
    (hP : isNumberText (fmt p.TopP) = true) :
    decodeObject ((bodyOf prompt p).text short fmt)
      = some [ ("max_tokens_to_sample", .number (.literal (String.mk (formatInt p.MaxTokens)))),
               ("prompt", .string (wrapped prompt)),
               ("temperature", .number (.literal (String.mk (fmt p.Temperature)))),
               ("top_k", .number (.literal (String.mk (formatInt p.TopK)))),
               ("top_p", .number (.literal (String.mk (fmt p.TopP)))) ] := by
  rw [bodyOf, decodeObject_text]
  · rfl
  · intro kv hkv
    simp only [List.mem_cons, List.mem_singleton, List.not_mem_nil, or_false] at hkv
    rcases hkv with rfl | rfl | rfl | rfl | rfl <;>
      simp only [isFlatValue, JsonNumber.text, formatInt_numberText, hT, hP]

theorem memberNamed_prompt (a b c d e : Json) :
    memberNamed "prompt"
      [ ("max_tokens_to_sample", a), ("prompt", b), ("temperature", c), ("top_k", d),
        ("top_p", e) ] = some b := by
  have h : ("max_tokens_to_sample" == "prompt") = false := by decide
  simp only [memberNamed, List.find?, h, beq_self_eq_true, Option.map]

/-! ### C12 -/

/-- C12: when `InvokeModel` builds a request body (the temperature and top-p are finite),
the body is delivered, and decoding the JSON text of that body gives an object whose
`prompt` member is the string `\n\nHuman: ` followed by the caller's prompt followed by
`\n\nAssistant:`. This holds for every prompt (a prompt here is a sequence of Unicode
characters, which is what a valid UTF-8 string is), so the prompt is embedded unmodified
and untrimmed; a string written by the encoder always reads back as itself, and quotes,
backslashes, newlines, `<`, `>` and `&` only change the encoded text. The text of the two
floating-point members is taken as given and assumed to be a JSON number text; the result
holds for both ways Go versions write the backspace and form-feed characters. -/
theorem request_prompt_roundtrip (shortEscapes : Bool) (formatFloat : Float64 → List Char)
    (c : Client) (prompt : String) (p : ModelParams) (w : World)
    (hfin : finiteParams p = true)
    (hT : isNumberText (formatFloat p.Temperature) = true)
    (hP : isNumberText (formatFloat p.TopP) = true) :
    (∃ r members,
      (c.InvokeModel prompt p w).2.requests = w.requests ++ [r] ∧
      decodeObject (r.Body.text shortEscapes formatFloat) = some members ∧
      memberNamed "prompt" members
        = some (.string ("\n\nHuman: " ++ prompt ++ "\n\nAssistant:")) ∧
      members.map Prod.fst
        = ["max_tokens_to_sample", "prompt", "temperature", "top_k", "top_p"]) ∧
    (∀ (s : String) (rest : List Char),
      decodeValue (appendString shortEscapes s ++ rest) = some (.string s, rest)) ∧
    appendString shortEscapes "\"\\\n<>&"
      = "\"\\\"\\\\\\n\\u003c\\u003e\\u0026\"".data := by
  refine ⟨⟨requestOf prompt p, _, ?_, decodeObject_bodyOf shortEscapes formatFloat prompt p hT hP,
    memberNamed_prompt _ _ _ _ _, rfl⟩, decodeValue_appendString shortEscapes, ?_⟩
  · rw [invokeModel_world, if_pos hfin]
  · cases shortEscapes <;> decide

set_option maxRecDepth 100000 in
/-- C12 at a prompt with leading and trailing blanks, a quote, a backslash, a newline and
the characters `<`, `>` and `&`. -/
theorem request_prompt_roundtrip_witness :
    finiteParams sampleParams = true ∧
    isNumberText (sampleFormat sampleParams.Temperature) = true ∧
    isNumberText (sampleFormat sampleParams.TopP) = true ∧
    ((∃ r members,
      ((failing (.sdk "down")).InvokeModel "  a\"b\\c\n<d>&e \n" sampleParams
          World.start).2.requests = World.start.requests ++ [r] ∧
      decodeObject (r.Body.text true sampleFormat) = some members ∧
      memberNamed "prompt" members
        = some (.string ("\n\nHuman: " ++ "  a\"b\\c\n<d>&e \n" ++ "\n\nAssistant:")) ∧
      members.map Prod.fst
        = ["max_tokens_to_sample", "prompt", "temperature", "top_k", "top_p"]) ∧
    (∀ (s : String) (rest : List Char),
      decodeValue (appendString true s ++ rest) = some (.string s, rest)) ∧
    appendString true "\"\\\n<>&"
      = "\"\\\"\\\\\\n\\u003c\\u003e\\u0026\"".data) :=
  ⟨by decide, by decide, by decide,
    request_prompt_roundtrip true sampleFormat (failing (.sdk "down"))
      "  a\"b\\c\n<d>&e \n" sampleParams World.start (by decide) (by decide) (by decide)⟩

end Claims
